import Mathlib

/-!
# TNM046 matrix utilities: a shallow embedding

The labs keep a 4x4 matrix in a `std::array<float, 16>` in column-major order.
The embedding reads `float` as an exact field element: every definition is
polymorphic in the element type, so it runs on `ℚ` and is reasoned about on `ℝ`.
`mat4perspective` is also read on `F32`, a model of IEEE 754 binary32 with its
rounding, overflow and underflow: the claims about its derived quantities hold
on the exact reading and fail on the binary32 one.
The `<cmath>` functions `sin`, `cos` and `tan` are library code outside the
repository and are passed in as parameters (instantiated with `Real.sin`,
`Real.cos`, `Real.tan` in the theorems).
-/

namespace TNM046

/-- A `std::array<float, 16>`: sixteen elements addressed by an index below 16. -/
abbrev Mat4 (α : Type) := Fin 16 → α

/-- A four-component column vector. -/
abbrev Vec4 (α : Type) := Fin 4 → α

/-- The assignment `m[i] = v` on an array. -/
def Mat4.set {α : Type} (m : Mat4 α) (i : Fin 16) (v : α) : Mat4 α :=
  fun j => if j = i then v else m j

/-- Reading back the sixteen stored elements of a `std::array` variable; a
variable initialised with `List.ofFn m` holds the elements of `m`, evaluated
once. -/
def Mat4.ofList {α : Type} [Zero α] (l : List α) : Mat4 α :=
  fun i => l.getD i.val 0

/-- Column-major addressing of the data model: the element at row `row`,
column `col` lives at index `col*4 + row`. -/
def idx (col row : Fin 4) : Fin 16 := ⟨col.val * 4 + row.val, by omega⟩

/-- Specification-level matrix-vector product under the column-major
convention, `apply(m, v)[row] = Σ_k m[k*4+row] * v[k]`. The repository has no
host-side function for it (the product is taken in the vertex shader); it is
used only to state how a matrix acts on a column vector. -/
def applyVec {α : Type} [Field α] (m : Mat4 α) (v : Vec4 α) : Vec4 α :=
  fun row => ∑ k : Fin 4, m (idx k row) * v k

/-- Specification-level transpose of a column-major array: the element at
row `row`, column `col` of the result is the element at row `col`, column `row`
of `m`. The repository has no such function. -/
def transpose {α : Type} (m : Mat4 α) : Mat4 α :=
  fun i => m ⟨(i.val % 4) * 4 + i.val / 4, by omega⟩

/-- Specification-level predicate: the bottom row of `m` is `(0, 0, 0, 1)`, that
is, indices 3, 7, 11 are 0 and index 15 is 1. -/
def AffineBottomRow {α : Type} [Field α] (m : Mat4 α) : Prop :=
  m 3 = 0 ∧ m 7 = 0 ∧ m 11 = 0 ∧ m 15 = 1

/-- A component of three-dimensional space. -/
abbrev Vec3 (α : Type) := Fin 3 → α

/-- Vertex `i` of a flat array of xyz triples, the layout declared by
`createVertexBuffer(0, 3, vertexArrayData)`: three consecutive floats per
vertex. -/
def vertexAt {α : Type} [Field α] (data : List α) (i : Nat) : Vec3 α :=
  ![data.getD (3 * i) 0, data.getD (3 * i + 1) 0, data.getD (3 * i + 2) 0]

/-- Index `j` (0, 1 or 2) of triangle `k` of a flat index array drawn as
`GL_TRIANGLES`: three consecutive indices per triangle. -/
def triangleIndex (indices : List Nat) (k : Nat) (j : Nat) : Nat :=
  indices.getD (3 * k + j) 0

/-- Specification-level cross product. -/
def cross {α : Type} [Field α] (u v : Vec3 α) : Vec3 α :=
  ![u 1 * v 2 - u 2 * v 1, u 2 * v 0 - u 0 * v 2, u 0 * v 1 - u 1 * v 0]

/-- Specification-level dot product. -/
def dot {α : Type} [Field α] (u v : Vec3 α) : α :=
  u 0 * v 0 + u 1 * v 1 + u 2 * v 2

/-- Specification-level face normal of triangle `k`:
`(v[i1] - v[i0]) x (v[i2] - v[i0])`. -/
def faceNormal {α : Type} [Field α] (data : List α) (indices : List Nat) (k : Nat) :
    Vec3 α :=
  cross
    (fun c => vertexAt data (triangleIndex indices k 1) c
      - vertexAt data (triangleIndex indices k 0) c)
    (fun c => vertexAt data (triangleIndex indices k 2) c
      - vertexAt data (triangleIndex indices k 0) c)

/-- Specification-level centroid of triangle `k`. -/
def centroid {α : Type} [Field α] (data : List α) (indices : List Nat) (k : Nat) :
    Vec3 α :=
  fun c => (vertexAt data (triangleIndex indices k 0) c
    + vertexAt data (triangleIndex indices k 1) c
    + vertexAt data (triangleIndex indices k 2) c) / 3

/-- The error conditions a call may end with; the specification names one,
InvalidArgument. A call is modelled as `Except Mat4Error` of its return value. -/
inductive Mat4Error where
  | invalidArgument
  deriving DecidableEq, Repr

/-! ## binary32 arithmetic

The element type `float` of the source, with its rounding, overflow and
underflow (IEEE 754 binary32, round to nearest, ties to even). The claims about
derived quantities of `mat4perspective` are decided on this reading. -/

/-- An IEEE 754 binary32 value: `fin neg m e` is `(-1)^neg * m * 2^e` (with
`m = 0` for the two zeros), `inf neg` is an infinity, `nan` is not-a-number. -/
inductive F32 where
  | fin (neg : Bool) (m : Nat) (e : Int)
  | inf (neg : Bool)
  | nan
  deriving DecidableEq, Repr

/-- Number of binary digits of `n`, counted in at most `fuel` steps. -/
def F32.bitLengthAux : Nat → Nat → Nat
  | 0, _ => 0
  | fuel + 1, n => if n = 0 then 0 else F32.bitLengthAux fuel (n / 2) + 1

/-- Number of binary digits of `n` (`n` steps always suffice). -/
def F32.bitLength (n : Nat) : Nat := F32.bitLengthAux n n

/-- The quotient `N / D` rounded to the nearest integer, ties to even. -/
def F32.rneDiv (N D : Nat) : Nat :=
  let q := N / D
  let r := N % D
  if 2 * r < D then q else if D < 2 * r then q + 1 else if q % 2 = 0 then q else q + 1

/-- The binary32 value nearest to `(N / D) * 2^s`, ties to even, with sign `neg`:
24 significant bits, exponent of the last place not below -149 (subnormal
numbers), and infinity when the rounded value reaches `2^128`. -/
def F32.round (neg : Bool) (N D : Nat) (s : Int) : F32 :=
  if N = 0 then F32.fin neg 0 0 else
  let c : Int := (F32.bitLength N : Int) - (F32.bitLength D : Int)
  let below : Bool :=
    if 0 ≤ c then decide (N < D * 2 ^ c.toNat) else decide (N * 2 ^ (-c).toNat < D)
  let lead : Int := if below then c - 1 else c
  let e : Int := max (lead + s) (-126)
  let k : Int := e - 23
  let sh : Int := s - k
  let M : Nat :=
    if 0 ≤ sh then F32.rneDiv (N * 2 ^ sh.toNat) D else F32.rneDiv N (D * 2 ^ (-sh).toNat)
  if 104 < k ∨ (k = 104 ∧ 2 ^ 24 ≤ M) then F32.inf neg else F32.fin neg M k

/-- Unary minus of binary32: the sign is flipped. -/
def F32.neg : F32 → F32
  | F32.fin s m e => F32.fin (!s) m e
  | F32.inf s => F32.inf (!s)
  | F32.nan => F32.nan

/-- Product of binary32. -/
def F32.mul : F32 → F32 → F32
  | F32.fin s1 m1 e1, F32.fin s2 m2 e2 => F32.round (xor s1 s2) (m1 * m2) 1 (e1 + e2)
  | F32.fin s1 m1 _, F32.inf s2 => if m1 = 0 then F32.nan else F32.inf (xor s1 s2)
  | F32.inf s1, F32.fin s2 m2 _ => if m2 = 0 then F32.nan else F32.inf (xor s1 s2)
  | F32.inf s1, F32.inf s2 => F32.inf (xor s1 s2)
  | _, _ => F32.nan

/-- Quotient of binary32; a non-zero value divided by a zero is an infinity. -/
def F32.div : F32 → F32 → F32
  | F32.fin s1 m1 e1, F32.fin s2 m2 e2 =>
    if m2 = 0 then (if m1 = 0 then F32.nan else F32.inf (xor s1 s2))
    else F32.round (xor s1 s2) m1 m2 (e1 - e2)
  | F32.fin s1 _ _, F32.inf s2 => F32.fin (xor s1 s2) 0 0
  | F32.inf s1, F32.fin s2 _ _ => F32.inf (xor s1 s2)
  | _, _ => F32.nan

/-- Sum of binary32: the exact sum, rounded; an exact zero sum is `+0` unless
both operands are `-0`. -/
def F32.add : F32 → F32 → F32
  | F32.fin s1 m1 e1, F32.fin s2 m2 e2 =>
    let e := min e1 e2
    let a : Int := (if s1 then -1 else 1) * ((m1 * 2 ^ (e1 - e).toNat : Nat) : Int)
    let b : Int := (if s2 then -1 else 1) * ((m2 * 2 ^ (e2 - e).toNat : Nat) : Int)
    let t := a + b
    if t = 0 then F32.fin (decide (m1 = 0) && decide (m2 = 0) && s1 && s2) 0 0
    else F32.round (decide (t < 0)) t.natAbs 1 e
  | F32.fin _ _ _, F32.inf s2 => F32.inf s2
  | F32.inf s1, F32.fin _ _ _ => F32.inf s1
  | F32.inf s1, F32.inf s2 => if s1 = s2 then F32.inf s1 else F32.nan
  | _, _ => F32.nan

/-- Difference of binary32. -/
def F32.sub (x y : F32) : F32 := F32.add x (F32.neg y)

instance : Add F32 := ⟨F32.add⟩

instance : Sub F32 := ⟨F32.sub⟩

instance : Mul F32 := ⟨F32.mul⟩

instance : Div F32 := ⟨F32.div⟩

instance : Neg F32 := ⟨F32.neg⟩

instance (n : Nat) : OfNat F32 n := ⟨F32.fin false n 0⟩

/-- Whether a binary32 value is a finite number. -/
def F32.isFinite : F32 → Bool
  | F32.fin _ _ _ => true
  | _ => false

/-- The rational number a finite binary32 value stands for (0 for the
infinities and NaN, which stand for no number). -/
def F32.toRat : F32 → ℚ
  | F32.fin s m e => (if s then -1 else 1) * (m : ℚ) * 2 ^ e
  | _ => 0

/-! ## lab2 -/

namespace Lab2

variable {α : Type} [Field α]

/-- `mat4mult` of lab2 (GLprimer.cpp lines 89-115). The right-hand sides are
those of the later labs, in the same order; the indices assigned to are
0, 4, 8, 12, 1, 5, ... as in the source. -/
def mat4mult (m1 m2 : Mat4 α) : Mat4 α :=
  let result : Mat4 α := fun _ => 0
  let result := result.set 0 (m1 0 * m2 0 + m1 4 * m2 1 + m1 8 * m2 2 + m1 12 * m2 3)
  let result := result.set 4 (m1 1 * m2 0 + m1 5 * m2 1 + m1 9 * m2 2 + m1 13 * m2 3)
  let result := result.set 8 (m1 2 * m2 0 + m1 6 * m2 1 + m1 10 * m2 2 + m1 14 * m2 3)
  let result := result.set 12 (m1 3 * m2 0 + m1 7 * m2 1 + m1 11 * m2 2 + m1 15 * m2 3)

  let result := result.set 1 (m1 0 * m2 4 + m1 4 * m2 5 + m1 8 * m2 6 + m1 12 * m2 7)
  let result := result.set 5 (m1 1 * m2 4 + m1 5 * m2 5 + m1 9 * m2 6 + m1 13 * m2 7)
  let result := result.set 9 (m1 2 * m2 4 + m1 6 * m2 5 + m1 10 * m2 6 + m1 14 * m2 7)
  let result := result.set 13 (m1 3 * m2 4 + m1 7 * m2 5 + m1 11 * m2 6 + m1 15 * m2 7)

  let result := result.set 2 (m1 0 * m2 8 + m1 4 * m2 9 + m1 8 * m2 10 + m1 12 * m2 11)
  let result := result.set 6 (m1 1 * m2 8 + m1 5 * m2 9 + m1 9 * m2 10 + m1 13 * m2 11)
  let result := result.set 10 (m1 2 * m2 8 + m1 6 * m2 9 + m1 10 * m2 10 + m1 14 * m2 11)
  let result := result.set 14 (m1 3 * m2 8 + m1 7 * m2 9 + m1 11 * m2 10 + m1 15 * m2 11)

  let result := result.set 3 (m1 0 * m2 12 + m1 4 * m2 13 + m1 8 * m2 14 + m1 12 * m2 15)
  let result := result.set 7 (m1 1 * m2 12 + m1 5 * m2 13 + m1 9 * m2 14 + m1 13 * m2 15)
  let result := result.set 11 (m1 2 * m2 12 + m1 6 * m2 13 + m1 10 * m2 14 + m1 14 * m2 15)
  let result := result.set 15 (m1 3 * m2 12 + m1 7 * m2 13 + m1 11 * m2 14 + m1 15 * m2 15)

  result

/-- `mat4print` of lab2 (lines 118-125), as the sequence of its `printf` calls:
each call is its format string with its arguments in order. -/
def mat4print (m : Mat4 α) : List (String × List α) :=
  [("Matrix: \n", []),
   ("%6.2f %6.2f %6.2f %6.2f \n", [m 0, m 4, m 8, m 12]),
   ("%6.2f %6.2f %6.2f %6.2f \n", [m 1, m 5, m 9, m 13]),
   ("%6.2f %6.2f %6.2f %6.2f \n", [m 2, m 6, m 10, m 14]),
   ("%6.2f %6.2f %6.2f %6.2f \n", [m 3, m 7, m 11, m 15]),
   ("\n", [])]

/-- `mat4identity` of lab2 (lines 127-135). -/
def mat4identity : Mat4 α :=
  ![1, 0, 0, 0,
    0, 1, 0, 0,
    0, 0, 1, 0,
    0, 0, 0, 1]

/-- `mat4rotx` of lab2 (lines 137-145). -/
def mat4rotx (cos sin : α → α) (angle : α) : Mat4 α :=
  ![1, 0, 0, 0,
    0, cos angle, sin angle, 0,
    0, -sin angle, cos angle, 0,
    0, 0, 0, 1]

/-- `mat4roty` of lab2 (lines 147-155). -/
def mat4roty (cos sin : α → α) (angle : α) : Mat4 α :=
  ![cos angle, 0, -sin angle, 0,
    0, 1, 0, 0,
    sin angle, 0, cos angle, 0,
    0, 0, 0, 1]

/-- `mat4rotz` of lab2 (lines 157-165). -/
def mat4rotz (cos sin : α → α) (angle : α) : Mat4 α :=
  ![cos angle, sin angle, 0, 0,
    -sin angle, cos angle, 0, 0,
    0, 0, 1, 0,
    0, 0, 0, 1]

/-- `mat4scale` of lab2 (lines 167-175). -/
def mat4scale (scale : α) : Mat4 α :=
  ![scale, 0, 0, 0,
    0, scale, 0, 0,
    0, 0, scale, 0,
    0, 0, 0, 1]

/-- `mat4translate` of lab2 (lines 177-187). -/
def mat4translate (x y z : α) : Mat4 α :=
  ![1, 0, 0, 0,
    0, 1, 0, 0,
    0, 0, 1, 0,
    x, y, z, 1]

/-- `vertexArrayData` of lab2's `main` (lines 242-252): xyz of the eight
vertices 0..7. -/
def vertexArrayData : List α :=
  [1, -1, -1,
   1, 1, -1,
   1, 1, 1,
   1, -1, 1,

   -1, -1, -1,
   -1, -1, 1,
   -1, 1, -1,
   -1, 1, 1]

/-- `indexArrayData` of lab2's `main` (lines 253-260). -/
def indexArrayData : List Nat :=
  [0, 1, 3, 1, 2, 3,
   1, 6, 7, 1, 7, 2,
   3, 2, 7, 3, 7, 5,
   0, 3, 5, 0, 5, 4,
   0, 6, 1, 0, 4, 6,
   6, 4, 5, 6, 5, 7]

/-- The byte size `createIndexBuffer` (lines 205-214) passes to `glBufferData`:
`indices.size() * sizeof(unsigned int)`. -/
def createIndexBufferBytes (indices : List Nat) (sizeofUInt : Nat) : Nat :=
  indices.length * sizeofUInt

/-- The `count` argument of the two `glDrawElements` calls of lab2's render
loop (lines 401 and 405): `indexArrayData.size() * sizeof(GLuint)`. -/
def drawElementsCount (sizeofGLuint : Nat) : Nat :=
  indexArrayData.length * sizeofGLuint

end Lab2

/-! ## lab3 -/

namespace Lab3

variable {α : Type} [Field α]

/-- `mat4mult` of lab3 (GLprimer.cpp lines 51-77). The local `result` starts
uninitialised; all sixteen elements are assigned before it is returned. -/
def mat4mult (m1 m2 : Mat4 α) : Mat4 α :=
  let result : Mat4 α := fun _ => 0
  let result := result.set 0 (m1 0 * m2 0 + m1 4 * m2 1 + m1 8 * m2 2 + m1 12 * m2 3)
  let result := result.set 1 (m1 1 * m2 0 + m1 5 * m2 1 + m1 9 * m2 2 + m1 13 * m2 3)
  let result := result.set 2 (m1 2 * m2 0 + m1 6 * m2 1 + m1 10 * m2 2 + m1 14 * m2 3)
  let result := result.set 3 (m1 3 * m2 0 + m1 7 * m2 1 + m1 11 * m2 2 + m1 15 * m2 3)

  let result := result.set 4 (m1 0 * m2 4 + m1 4 * m2 5 + m1 8 * m2 6 + m1 12 * m2 7)
  let result := result.set 5 (m1 1 * m2 4 + m1 5 * m2 5 + m1 9 * m2 6 + m1 13 * m2 7)
  let result := result.set 6 (m1 2 * m2 4 + m1 6 * m2 5 + m1 10 * m2 6 + m1 14 * m2 7)
  let result := result.set 7 (m1 3 * m2 4 + m1 7 * m2 5 + m1 11 * m2 6 + m1 15 * m2 7)

  let result := result.set 8 (m1 0 * m2 8 + m1 4 * m2 9 + m1 8 * m2 10 + m1 12 * m2 11)
  let result := result.set 9 (m1 1 * m2 8 + m1 5 * m2 9 + m1 9 * m2 10 + m1 13 * m2 11)
  let result := result.set 10 (m1 2 * m2 8 + m1 6 * m2 9 + m1 10 * m2 10 + m1 14 * m2 11)
  let result := result.set 11 (m1 3 * m2 8 + m1 7 * m2 9 + m1 11 * m2 10 + m1 15 * m2 11)

  let result := result.set 12 (m1 0 * m2 12 + m1 4 * m2 13 + m1 8 * m2 14 + m1 12 * m2 15)
  let result := result.set 13 (m1 1 * m2 12 + m1 5 * m2 13 + m1 9 * m2 14 + m1 13 * m2 15)
  let result := result.set 14 (m1 2 * m2 12 + m1 6 * m2 13 + m1 10 * m2 14 + m1 14 * m2 15)
  let result := result.set 15 (m1 3 * m2 12 + m1 7 * m2 13 + m1 11 * m2 14 + m1 15 * m2 15)

  result

/-- `mat4print` of lab3 (lines 80-87), as the sequence of its `printf` calls:
each call is its format string with its arguments in order. -/
def mat4print (m : Mat4 α) : List (String × List α) :=
  [("Matrix: \n", []),
   ("%6.2f %6.2f %6.2f %6.2f \n", [m 0, m 4, m 8, m 12]),
   ("%6.2f %6.2f %6.2f %6.2f \n", [m 1, m 5, m 9, m 13]),
   ("%6.2f %6.2f %6.2f %6.2f \n", [m 2, m 6, m 10, m 14]),
   ("%6.2f %6.2f %6.2f %6.2f \n", [m 3, m 7, m 11, m 15]),
   ("\n", [])]

/-- `mat4identity` of lab3 (lines 89-97). -/
def mat4identity : Mat4 α :=
  ![1, 0, 0, 0,
    0, 1, 0, 0,
    0, 0, 1, 0,
    0, 0, 0, 1]

/-- `mat4rotx` of lab3 (lines 99-107). -/
def mat4rotx (cos sin : α → α) (angle : α) : Mat4 α :=
  ![1, 0, 0, 0,
    0, cos angle, sin angle, 0,
    0, -sin angle, cos angle, 0,
    0, 0, 0, 1]

/-- `mat4roty` of lab3 (lines 109-117). -/
def mat4roty (cos sin : α → α) (angle : α) : Mat4 α :=
  ![cos angle, 0, sin angle, 0,
    0, 1, 0, 0,
    -sin angle, 0, cos angle, 0,
    0, 0, 0, 1]

/-- `mat4rotz` of lab3 (lines 119-127). -/
def mat4rotz (cos sin : α → α) (angle : α) : Mat4 α :=
  ![cos angle, sin angle, 0, 0,
    -sin angle, cos angle, 0, 0,
    0, 0, 1, 0,
    0, 0, 0, 1]

/-- `mat4scale` of lab3 (lines 129-137). -/
def mat4scale (scale : α) : Mat4 α :=
  ![scale, 0, 0, 0,
    0, scale, 0, 0,
    0, 0, scale, 0,
    0, 0, 0, 1]

/-- `mat4translate` of lab3 (lines 139-149). -/
def mat4translate (x y z : α) : Mat4 α :=
  ![1, 0, 0, 0,
    0, 1, 0, 0,
    0, 0, 1, 0,
    x, y, z, 1]

end Lab3

/-! ## lab5 -/

namespace Lab5

variable {α : Type} [Field α]

/-- `mat4mult` of lab5 (GLprimer.cpp lines 55-81). The local `result` starts
uninitialised; all sixteen elements are assigned before it is returned. -/
def mat4mult (m1 m2 : Mat4 α) : Mat4 α :=
  let result : Mat4 α := fun _ => 0
  let result := result.set 0 (m1 0 * m2 0 + m1 4 * m2 1 + m1 8 * m2 2 + m1 12 * m2 3)
  let result := result.set 1 (m1 1 * m2 0 + m1 5 * m2 1 + m1 9 * m2 2 + m1 13 * m2 3)
  let result := result.set 2 (m1 2 * m2 0 + m1 6 * m2 1 + m1 10 * m2 2 + m1 14 * m2 3)
  let result := result.set 3 (m1 3 * m2 0 + m1 7 * m2 1 + m1 11 * m2 2 + m1 15 * m2 3)

  let result := result.set 4 (m1 0 * m2 4 + m1 4 * m2 5 + m1 8 * m2 6 + m1 12 * m2 7)
  let result := result.set 5 (m1 1 * m2 4 + m1 5 * m2 5 + m1 9 * m2 6 + m1 13 * m2 7)
  let result := result.set 6 (m1 2 * m2 4 + m1 6 * m2 5 + m1 10 * m2 6 + m1 14 * m2 7)
  let result := result.set 7 (m1 3 * m2 4 + m1 7 * m2 5 + m1 11 * m2 6 + m1 15 * m2 7)

  let result := result.set 8 (m1 0 * m2 8 + m1 4 * m2 9 + m1 8 * m2 10 + m1 12 * m2 11)
  let result := result.set 9 (m1 1 * m2 8 + m1 5 * m2 9 + m1 9 * m2 10 + m1 13 * m2 11)
  let result := result.set 10 (m1 2 * m2 8 + m1 6 * m2 9 + m1 10 * m2 10 + m1 14 * m2 11)
  let result := result.set 11 (m1 3 * m2 8 + m1 7 * m2 9 + m1 11 * m2 10 + m1 15 * m2 11)

  let result := result.set 12 (m1 0 * m2 12 + m1 4 * m2 13 + m1 8 * m2 14 + m1 12 * m2 15)
  let result := result.set 13 (m1 1 * m2 12 + m1 5 * m2 13 + m1 9 * m2 14 + m1 13 * m2 15)
  let result := result.set 14 (m1 2 * m2 12 + m1 6 * m2 13 + m1 10 * m2 14 + m1 14 * m2 15)
  let result := result.set 15 (m1 3 * m2 12 + m1 7 * m2 13 + m1 11 * m2 14 + m1 15 * m2 15)

  result

/-- `mat4print` of lab5 (lines 84-91), as the sequence of its `printf` calls:
each call is its format string with its arguments in order. -/
def mat4print (m : Mat4 α) : List (String × List α) :=
  [("Matrix: \n", []),
   ("%6.2f %6.2f %6.2f %6.2f \n", [m 0, m 4, m 8, m 12]),
   ("%6.2f %6.2f %6.2f %6.2f \n", [m 1, m 5, m 9, m 13]),
   ("%6.2f %6.2f %6.2f %6.2f \n", [m 2, m 6, m 10, m 14]),
   ("%6.2f %6.2f %6.2f %6.2f \n", [m 3, m 7, m 11, m 15]),
   ("\n", [])]

/-- `mat4identity` of lab5 (lines 93-101). -/
def mat4identity : Mat4 α :=
  ![1, 0, 0, 0,
    0, 1, 0, 0,
    0, 0, 1, 0,
    0, 0, 0, 1]

/-- `mat4rotx` of lab5 (lines 103-111). -/
def mat4rotx (cos sin : α → α) (angle : α) : Mat4 α :=
  ![1, 0, 0, 0,
    0, cos angle, sin angle, 0,
    0, -sin angle, cos angle, 0,
    0, 0, 0, 1]

/-- `mat4roty` of lab5 (lines 113-121). -/
def mat4roty (cos sin : α → α) (angle : α) : Mat4 α :=
  ![cos angle, 0, sin angle, 0,
    0, 1, 0, 0,
    -sin angle, 0, cos angle, 0,
    0, 0, 0, 1]

/-- `mat4rotz` of lab5 (lines 123-131). -/
def mat4rotz (cos sin : α → α) (angle : α) : Mat4 α :=
  ![cos angle, sin angle, 0, 0,
    -sin angle, cos angle, 0, 0,
    0, 0, 1, 0,
    0, 0, 0, 1]

/-- `mat4scale` of lab5 (lines 133-141). -/
def mat4scale (scale : α) : Mat4 α :=
  ![scale, 0, 0, 0,
    0, scale, 0, 0,
    0, 0, scale, 0,
    0, 0, 0, 1]

/-- `mat4translate` of lab5 (lines 143-153). -/
def mat4translate (x y z : α) : Mat4 α :=
  ![1, 0, 0, 0,
    0, 1, 0, 0,
    0, 0, 1, 0,
    x, y, z, 1]

/-- `mat4perspective` of lab5 (lines 188-202), over any element type with the
arithmetic the body uses: read on `ℝ` it is the exact formula, read on `F32` it
is the `float` computation of the source. -/
def mat4perspective {β : Type} [Add β] [Sub β] [Mul β] [Div β] [Neg β]
    [OfNat β 0] [OfNat β 1] [OfNat β 2]
    (tan : β → β) (vfov aspect znear zfar : β) : Mat4 β :=
  let f := 1 / tan (vfov / 2)
  ![f / aspect, 0, 0, 0,
    0, f, 0, 0,
    0, 0, (-(zfar + znear)) / (zfar - znear), -1,
    0, 0, (-(2 * zfar * znear)) / (zfar - znear), 0]

/-- A call of `mat4perspective` seen with its way of ending. The body has no
`throw`, no validation branch and no other exit than `return temp;`, so every
call ends by returning the array. -/
def mat4perspectiveCall (tan : α → α) (vfov aspect znear zfar : α) :
    Except Mat4Error (Mat4 α) :=
  Except.ok (mat4perspective tan vfov aspect znear zfar)

/-- The matrix `matE` of lab5's render loop (lines 353-365); `pi` stands for
the `<cmath>` constant `M_PI` and `time` for the value read from the clock.
The products are kept in variables, as in the source. -/
def matE (cos sin : α → α) (pi time : α) : Mat4 α :=
  let matVrid := mat4rotx cos sin (-pi / 2)
  let matMinska := mat4scale 0.2
  let matSpin := mat4roty cos sin time
  let matFlytt := mat4translate 0.5 0.0 0.0
  let matOrbit := mat4roty cos sin (time / 2)
  let matCam := mat4rotx cos sin (pi / 8)
  let matA := List.ofFn (mat4mult matMinska matVrid)
  let matB := List.ofFn (mat4mult matSpin (Mat4.ofList matA))
  let matC := List.ofFn (mat4mult matFlytt (Mat4.ofList matB))
  let matD := List.ofFn (mat4mult matOrbit (Mat4.ofList matC))
  let matE := List.ofFn (mat4mult matCam (Mat4.ofList matD))
  Mat4.ofList matE

/-- The model-view matrix `matMV` uploaded for the first object in lab5's render
loop (line 382). -/
def matMV (cos sin : α → α) (pi time : α) : Mat4 α :=
  let matE := List.ofFn (matE cos sin pi time)
  let matMV := List.ofFn
    (mat4mult (mat4mult (mat4translate 0.0 0.0 (-2.5)) (Mat4.ofList matE)) (mat4scale 3.0))
  Mat4.ofList matMV

end Lab5

/-! ## Index lemmas -/

/-- Two arrays agree when they agree at every row and column. -/
theorem Mat4.ext_idx {α : Type} {m n : Mat4 α}
    (h : ∀ col row : Fin 4, m (idx col row) = n (idx col row)) : m = n := by
  funext i
  have hi : i = idx ⟨i.val / 4, by omega⟩ ⟨i.val % 4, by omega⟩ := by
    apply Fin.ext
    simp only [idx]
    omega
  rw [hi]
  exact h _ _

/-- Reading a sixteen-element array literal at row `row`, column `col`. -/
theorem vec16_idx {α : Type} (a0 a1 a2 a3 a4 a5 a6 a7 a8 a9 a10 a11 a12 a13 a14 a15 : α)
    (col row : Fin 4) :
    (![a0, a1, a2, a3, a4, a5, a6, a7, a8, a9, a10, a11, a12, a13, a14, a15] : Mat4 α)
        (idx col row)
      = ![![a0, a1, a2, a3], ![a4, a5, a6, a7], ![a8, a9, a10, a11],
          ![a12, a13, a14, a15]] col row := by
  fin_cases col <;> fin_cases row <;> rfl

/-- The matrix-vector product written out. -/
theorem applyVec_apply {α : Type} [Field α] (m : Mat4 α) (v : Vec4 α) (row : Fin 4) :
    applyVec m v row
      = m (idx 0 row) * v 0 + m (idx 1 row) * v 1 + m (idx 2 row) * v 2
          + m (idx 3 row) * v 3 := by
  simp only [applyVec, Fin.sum_univ_four]

/-- A sixteen-element array literal applied to a column vector. -/
theorem applyVec_vec16 {α : Type} [Field α]
    (a0 a1 a2 a3 a4 a5 a6 a7 a8 a9 a10 a11 a12 a13 a14 a15 v0 v1 v2 v3 : α) :
    applyVec ![a0, a1, a2, a3, a4, a5, a6, a7, a8, a9, a10, a11, a12, a13, a14, a15]
        ![v0, v1, v2, v3]
      = ![a0 * v0 + a4 * v1 + a8 * v2 + a12 * v3,
          a1 * v0 + a5 * v1 + a9 * v2 + a13 * v3,
          a2 * v0 + a6 * v1 + a10 * v2 + a14 * v3,
          a3 * v0 + a7 * v1 + a11 * v2 + a15 * v3] := by
  funext row
  rw [applyVec_apply]
  fin_cases row <;> rfl

/-- Element (row, col) of lab2's `mat4mult` is assigned the sum that belongs to
(col, row). -/
theorem lab2_mat4mult_idx {α : Type} [Field α] (m1 m2 : Mat4 α) (col row : Fin 4) :
    Lab2.mat4mult m1 m2 (idx row col) =
      m1 (idx 0 row) * m2 (idx col 0) + m1 (idx 1 row) * m2 (idx col 1)
        + m1 (idx 2 row) * m2 (idx col 2) + m1 (idx 3 row) * m2 (idx col 3) := by
  fin_cases col <;> fin_cases row <;> rfl

/-- Element (row, col) of lab3's `mat4mult`, read off the sixteen assignments. -/
theorem lab3_mat4mult_idx {α : Type} [Field α] (m1 m2 : Mat4 α) (col row : Fin 4) :
    Lab3.mat4mult m1 m2 (idx col row) =
      m1 (idx 0 row) * m2 (idx col 0) + m1 (idx 1 row) * m2 (idx col 1)
        + m1 (idx 2 row) * m2 (idx col 2) + m1 (idx 3 row) * m2 (idx col 3) := by
  fin_cases col <;> fin_cases row <;> rfl

/-- Element (row, col) of lab5's `mat4mult`, read off the sixteen assignments. -/
theorem lab5_mat4mult_idx {α : Type} [Field α] (m1 m2 : Mat4 α) (col row : Fin 4) :
    Lab5.mat4mult m1 m2 (idx col row) =
      m1 (idx 0 row) * m2 (idx col 0) + m1 (idx 1 row) * m2 (idx col 1)
        + m1 (idx 2 row) * m2 (idx col 2) + m1 (idx 3 row) * m2 (idx col 3) := by
  fin_cases col <;> fin_cases row <;> rfl

/-- Entries of lab3's identity by row and column. -/
theorem lab3_mat4identity_idx {α : Type} [Field α] (col row : Fin 4) :
    (Lab3.mat4identity : Mat4 α) (idx col row) = if col = row then 1 else 0 := by
  fin_cases col <;> fin_cases row <;> rfl

/-- Entries of lab5's identity by row and column. -/
theorem lab5_mat4identity_idx {α : Type} [Field α] (col row : Fin 4) :
    (Lab5.mat4identity : Mat4 α) (idx col row) = if col = row then 1 else 0 := by
  fin_cases col <;> fin_cases row <;> rfl

/-! ## Matrix product (C1 - C5) -/

/-- C1. In lab3 and lab5, element `col*4+row` of `mat4mult(a, b)` is the sum over
`k` in 0..3 of `a[k*4+row] * b[col*4+k]`: the column-major product a·b, with
float arithmetic read as exact real arithmetic. -/
theorem mat4mult_column_major_product (a b : Mat4 ℝ) (row col : Fin 4) :
    Lab3.mat4mult a b (idx col row) = ∑ k : Fin 4, a (idx k row) * b (idx col k) ∧
    Lab5.mat4mult a b (idx col row) = ∑ k : Fin 4, a (idx k row) * b (idx col k) := by
  rw [Fin.sum_univ_four]
  exact ⟨lab3_mat4mult_idx a b col row, lab5_mat4mult_idx a b col row⟩

/-- C2, evaluated on the code. Lab2's `main` prints
`mat4mult(mat4translate(6, 3, 5), mat4scale(2))`. The column-major product has
the translation 6, 3, 5 at indices 12, 13, 14 (the sums of the claim at column 3,
rows 0, 1, 2); lab2's `mat4mult` returns the transposed array, with 6, 3, 5 at
indices 3, 7, 11 and 0 at indices 12, 13, 14. -/
theorem lab2_mat4mult_translate_scale :
    Lab2.mat4mult (Lab2.mat4translate (6 : ℝ) 3 5) (Lab2.mat4scale 2)
      = ![2, 0, 0, 6,
          0, 2, 0, 3,
          0, 0, 2, 5,
          0, 0, 0, 1] ∧
    Lab2.mat4mult (Lab2.mat4translate (6 : ℝ) 3 5) (Lab2.mat4scale 2) (idx 3 0) = 0 ∧
    (∑ k : Fin 4, Lab2.mat4translate (6 : ℝ) 3 5 (idx k 0) * Lab2.mat4scale 2 (idx 3 k)) = 6 := by
  have key : Lab2.mat4mult (Lab2.mat4translate (6 : ℝ) 3 5) (Lab2.mat4scale 2)
      = ![2, 0, 0, 6, 0, 2, 0, 3, 0, 0, 2, 5, 0, 0, 0, 1] := by
    apply Mat4.ext_idx
    intro col row
    rw [lab2_mat4mult_idx]
    simp only [Lab2.mat4translate, Lab2.mat4scale, vec16_idx]
    fin_cases col <;> fin_cases row <;> norm_num
  refine ⟨key, ?_, ?_⟩
  · rw [key]
    rfl
  · rw [Fin.sum_univ_four]
    show (1 : ℝ) * 0 + 0 * 0 + 0 * 0 + 6 * 1 = 6
    norm_num

/-- C3. Identity law in lab3 and lab5: `mat4mult(m, mat4identity())` and
`mat4mult(mat4identity(), m)` both equal `m` element-wise. -/
theorem mat4mult_identity (m : Mat4 ℝ) :
    (Lab3.mat4mult m Lab3.mat4identity = m ∧ Lab3.mat4mult Lab3.mat4identity m = m) ∧
    (Lab5.mat4mult m Lab5.mat4identity = m ∧ Lab5.mat4mult Lab5.mat4identity m = m) := by
  refine ⟨⟨?_, ?_⟩, ⟨?_, ?_⟩⟩ <;> apply Mat4.ext_idx <;> intro col row
  · rw [lab3_mat4mult_idx]
    simp only [lab3_mat4identity_idx]
    fin_cases col <;> simp
  · rw [lab3_mat4mult_idx]
    simp only [lab3_mat4identity_idx]
    fin_cases row <;> simp
  · rw [lab5_mat4mult_idx]
    simp only [lab5_mat4identity_idx]
    fin_cases col <;> simp
  · rw [lab5_mat4mult_idx]
    simp only [lab5_mat4identity_idx]
    fin_cases row <;> simp

/-- C4. Associativity in lab3 and lab5: `mat4mult(mat4mult(a, b), c)` equals
`mat4mult(a, mat4mult(b, c))` element-wise, over exact real arithmetic. -/
theorem mat4mult_assoc (a b c : Mat4 ℝ) :
    Lab3.mat4mult (Lab3.mat4mult a b) c = Lab3.mat4mult a (Lab3.mat4mult b c) ∧
    Lab5.mat4mult (Lab5.mat4mult a b) c = Lab5.mat4mult a (Lab5.mat4mult b c) := by
  constructor <;> apply Mat4.ext_idx <;> intro col row
  · simp only [lab3_mat4mult_idx]
    ring
  · simp only [lab5_mat4mult_idx]
    ring

/-- C6 as stated fails on the code: `mat4perspective(pi/4, 1.0, -1.0, 10.0)`
violates `znear > 0`, yet the call does not end with InvalidArgument. -/
theorem mat4perspective_negative_near_not_rejected :
    ¬ ((-1 : ℝ) ≤ 0 →
        Lab5.mat4perspectiveCall Real.tan (Real.pi / 4) 1 (-1) 10
          = Except.error Mat4Error.invalidArgument) := by
  intro h
  have h1 := h (by norm_num)
  simp [Lab5.mat4perspectiveCall] at h1

/-- C6, amended. `mat4perspective` validates nothing and has no failing path:
for every vfov, aspect, znear and zfar the call returns the array built from the
formulas; `mat4perspective(pi/4, 1.0, -1.0, 10.0)` returns a matrix whose index
10 is -9/11, index 11 is -1 and index 14 is 20/11. -/
theorem mat4perspective_always_returns :
    (∀ vfov aspect znear zfar : ℝ,
      Lab5.mat4perspectiveCall Real.tan vfov aspect znear zfar
        = Except.ok (Lab5.mat4perspective Real.tan vfov aspect znear zfar)) ∧
    Lab5.mat4perspective Real.tan (Real.pi / 4) 1 (-1) 10 10 = -9 / 11 ∧
    Lab5.mat4perspective Real.tan (Real.pi / 4) 1 (-1) 10 11 = -1 ∧
    Lab5.mat4perspective Real.tan (Real.pi / 4) 1 (-1) 10 14 = 20 / 11 := by
  refine ⟨fun _ _ _ _ => rfl, ?_, rfl, ?_⟩
  · show (-(10 + -1 : ℝ)) / (10 - -1) = -9 / 11
    norm_num
  · show (-(2 * 10 * -1 : ℝ)) / (10 - -1) = 20 / 11
    norm_num

/-- C7. With `f = 1/tan(vfov/2)`, `mat4perspective(vfov, aspect, znear, zfar)` has
`f/aspect` at index 0, `f` at index 5, `-(zfar+znear)/(zfar-znear)` at index 10,
`-1` at index 11, `-(2*zfar*znear)/(zfar-znear)` at index 14 and 0 at the other
eleven indices, index 15 included. -/
theorem mat4perspective_entries (vfov aspect znear zfar : ℝ) :
    Lab5.mat4perspective Real.tan vfov aspect znear zfar 0
      = 1 / Real.tan (vfov / 2) / aspect ∧
    Lab5.mat4perspective Real.tan vfov aspect znear zfar 1 = 0 ∧
    Lab5.mat4perspective Real.tan vfov aspect znear zfar 2 = 0 ∧
    Lab5.mat4perspective Real.tan vfov aspect znear zfar 3 = 0 ∧
    Lab5.mat4perspective Real.tan vfov aspect znear zfar 4 = 0 ∧
    Lab5.mat4perspective Real.tan vfov aspect znear zfar 5 = 1 / Real.tan (vfov / 2) ∧
    Lab5.mat4perspective Real.tan vfov aspect znear zfar 6 = 0 ∧
    Lab5.mat4perspective Real.tan vfov aspect znear zfar 7 = 0 ∧
    Lab5.mat4perspective Real.tan vfov aspect znear zfar 8 = 0 ∧
    Lab5.mat4perspective Real.tan vfov aspect znear zfar 9 = 0 ∧
    Lab5.mat4perspective Real.tan vfov aspect znear zfar 10
      = -(zfar + znear) / (zfar - znear) ∧
    Lab5.mat4perspective Real.tan vfov aspect znear zfar 11 = -1 ∧
    Lab5.mat4perspective Real.tan vfov aspect znear zfar 12 = 0 ∧
    Lab5.mat4perspective Real.tan vfov aspect znear zfar 13 = 0 ∧
    Lab5.mat4perspective Real.tan vfov aspect znear zfar 14
      = -(2 * zfar * znear) / (zfar - znear) ∧
    Lab5.mat4perspective Real.tan vfov aspect znear zfar 15 = 0 :=
  ⟨rfl, rfl, rfl, rfl, rfl, rfl, rfl, rfl, rfl, rfl, rfl, rfl, rfl, rfl, rfl, rfl⟩

/-- C9, evaluated on the code. At the angle pi/2 the `mat4roty` of lab3 and of
lab5 has `+sin = 1` at index 2 and `-sin = -1` at index 8, and sends the vector
`(0, 0, 1)` to `(-1, 0, 0)`; the right-handed rotation of the claim has
`-sin(pi/2) = -1` at index 2 and sends `(0, 0, 1)` to `(1, 0, 0)`. -/
theorem mat4roty_quarter_turn_lab3_lab5 :
    (Lab5.mat4roty Real.cos Real.sin (Real.pi / 2) 2 = 1 ∧
      Lab5.mat4roty Real.cos Real.sin (Real.pi / 2) 8 = -1 ∧
      applyVec (Lab5.mat4roty Real.cos Real.sin (Real.pi / 2)) ![0, 0, 1, 0]
        = ![-1, 0, 0, 0]) ∧
    (Lab3.mat4roty Real.cos Real.sin (Real.pi / 2) 2 = 1 ∧
      Lab3.mat4roty Real.cos Real.sin (Real.pi / 2) 8 = -1 ∧
      applyVec (Lab3.mat4roty Real.cos Real.sin (Real.pi / 2)) ![0, 0, 1, 0]
        = ![-1, 0, 0, 0]) ∧
    Lab5.mat4roty Real.cos Real.sin (Real.pi / 2) 2 ≠ -Real.sin (Real.pi / 2) ∧
    Lab3.mat4roty Real.cos Real.sin (Real.pi / 2) 2 ≠ -Real.sin (Real.pi / 2) := by
  have h5 : Lab5.mat4roty Real.cos Real.sin (Real.pi / 2) 2 = 1 := by
    show Real.sin (Real.pi / 2) = 1
    exact Real.sin_pi_div_two
  have h3 : Lab3.mat4roty Real.cos Real.sin (Real.pi / 2) 2 = 1 := by
    show Real.sin (Real.pi / 2) = 1
    exact Real.sin_pi_div_two
  have h5' : Lab5.mat4roty Real.cos Real.sin (Real.pi / 2) 8 = -1 := by
    show -Real.sin (Real.pi / 2) = -1
    rw [Real.sin_pi_div_two]
  have h3' : Lab3.mat4roty Real.cos Real.sin (Real.pi / 2) 8 = -1 := by
    show -Real.sin (Real.pi / 2) = -1
    rw [Real.sin_pi_div_two]
  refine ⟨⟨h5, h5', ?_⟩, ⟨h3, h3', ?_⟩, ?_, ?_⟩
  · rw [Lab5.mat4roty, applyVec_vec16, Real.sin_pi_div_two, Real.cos_pi_div_two]
    norm_num
  · rw [Lab3.mat4roty, applyVec_vec16, Real.sin_pi_div_two, Real.cos_pi_div_two]
    norm_num
  · rw [h5, Real.sin_pi_div_two]
    norm_num
  · rw [h3, Real.sin_pi_div_two]
    norm_num

/-- C10. In lab2, `mat4roty(t)` is the right-handed rotation about the Y axis:
index 0 = cos t, index 2 = -sin t, index 8 = +sin t, index 10 = cos t,
index 5 = index 15 = 1, every other entry 0, and the vector `(0, 0, 1)` is sent
to `(sin t, 0, cos t)`. -/
theorem lab2_mat4roty_right_handed (t : ℝ) :
    Lab2.mat4roty Real.cos Real.sin t 0 = Real.cos t ∧
    Lab2.mat4roty Real.cos Real.sin t 1 = 0 ∧
    Lab2.mat4roty Real.cos Real.sin t 2 = -Real.sin t ∧
    Lab2.mat4roty Real.cos Real.sin t 3 = 0 ∧
    Lab2.mat4roty Real.cos Real.sin t 4 = 0 ∧
    Lab2.mat4roty Real.cos Real.sin t 5 = 1 ∧
    Lab2.mat4roty Real.cos Real.sin t 6 = 0 ∧
    Lab2.mat4roty Real.cos Real.sin t 7 = 0 ∧
    Lab2.mat4roty Real.cos Real.sin t 8 = Real.sin t ∧
    Lab2.mat4roty Real.cos Real.sin t 9 = 0 ∧
    Lab2.mat4roty Real.cos Real.sin t 10 = Real.cos t ∧
    Lab2.mat4roty Real.cos Real.sin t 11 = 0 ∧
    Lab2.mat4roty Real.cos Real.sin t 12 = 0 ∧
    Lab2.mat4roty Real.cos Real.sin t 13 = 0 ∧
    Lab2.mat4roty Real.cos Real.sin t 14 = 0 ∧
    Lab2.mat4roty Real.cos Real.sin t 15 = 1 ∧
    applyVec (Lab2.mat4roty Real.cos Real.sin t) ![0, 0, 1, 0]
      = ![Real.sin t, 0, Real.cos t, 0] := by
  refine ⟨rfl, rfl, rfl, rfl, rfl, rfl, rfl, rfl, rfl, rfl, rfl, rfl, rfl, rfl, rfl, rfl, ?_⟩
  rw [Lab2.mat4roty, applyVec_vec16]
  norm_num

/-! ## Rotations about X and Z (C11, C12) -/

/-- C11. In lab2, lab3 and lab5, `mat4rotx(t)` is the right-handed rotation about
the X axis: index 5 = cos t, index 6 = +sin t, index 9 = -sin t, index 10 = cos t,
index 0 = index 15 = 1, every other entry 0, and the vector `(0, 1, 0)` is sent
to `(0, cos t, sin t)`. -/
theorem mat4rotx_right_handed (t : ℝ) :
    (Lab2.mat4rotx Real.cos Real.sin t 0 = 1 ∧
     Lab2.mat4rotx Real.cos Real.sin t 1 = 0 ∧
     Lab2.mat4rotx Real.cos Real.sin t 2 = 0 ∧
     Lab2.mat4rotx Real.cos Real.sin t 3 = 0 ∧
     Lab2.mat4rotx Real.cos Real.sin t 4 = 0 ∧
     Lab2.mat4rotx Real.cos Real.sin t 5 = Real.cos t ∧
     Lab2.mat4rotx Real.cos Real.sin t 6 = Real.sin t ∧
     Lab2.mat4rotx Real.cos Real.sin t 7 = 0 ∧
     Lab2.mat4rotx Real.cos Real.sin t 8 = 0 ∧
     Lab2.mat4rotx Real.cos Real.sin t 9 = -Real.sin t ∧
     Lab2.mat4rotx Real.cos Real.sin t 10 = Real.cos t ∧
     Lab2.mat4rotx Real.cos Real.sin t 11 = 0 ∧
     Lab2.mat4rotx Real.cos Real.sin t 12 = 0 ∧
     Lab2.mat4rotx Real.cos Real.sin t 13 = 0 ∧
     Lab2.mat4rotx Real.cos Real.sin t 14 = 0 ∧
     Lab2.mat4rotx Real.cos Real.sin t 15 = 1) ∧
    (Lab3.mat4rotx Real.cos Real.sin t 0 = 1 ∧
     Lab3.mat4rotx Real.cos Real.sin t 1 = 0 ∧
     Lab3.mat4rotx Real.cos Real.sin t 2 = 0 ∧
     Lab3.mat4rotx Real.cos Real.sin t 3 = 0 ∧
     Lab3.mat4rotx Real.cos Real.sin t 4 = 0 ∧
     Lab3.mat4rotx Real.cos Real.sin t 5 = Real.cos t ∧
     Lab3.mat4rotx Real.cos Real.sin t 6 = Real.sin t ∧
     Lab3.mat4rotx Real.cos Real.sin t 7 = 0 ∧
     Lab3.mat4rotx Real.cos Real.sin t 8 = 0 ∧
     Lab3.mat4rotx Real.cos Real.sin t 9 = -Real.sin t ∧
     Lab3.mat4rotx Real.cos Real.sin t 10 = Real.cos t ∧
     Lab3.mat4rotx Real.cos Real.sin t 11 = 0 ∧
     Lab3.mat4rotx Real.cos Real.sin t 12 = 0 ∧
     Lab3.mat4rotx Real.cos Real.sin t 13 = 0 ∧
     Lab3.mat4rotx Real.cos Real.sin t 14 = 0 ∧
     Lab3.mat4rotx Real.cos Real.sin t 15 = 1) ∧
    (Lab5.mat4rotx Real.cos Real.sin t 0 = 1 ∧
     Lab5.mat4rotx Real.cos Real.sin t 1 = 0 ∧
     Lab5.mat4rotx Real.cos Real.sin t 2 = 0 ∧
     Lab5.mat4rotx Real.cos Real.sin t 3 = 0 ∧
     Lab5.mat4rotx Real.cos Real.sin t 4 = 0 ∧
     Lab5.mat4rotx Real.cos Real.sin t 5 = Real.cos t ∧
     Lab5.mat4rotx Real.cos Real.sin t 6 = Real.sin t ∧
     Lab5.mat4rotx Real.cos Real.sin t 7 = 0 ∧
     Lab5.mat4rotx Real.cos Real.sin t 8 = 0 ∧
     Lab5.mat4rotx Real.cos Real.sin t 9 = -Real.sin t ∧
     Lab5.mat4rotx Real.cos Real.sin t 10 = Real.cos t ∧
     Lab5.mat4rotx Real.cos Real.sin t 11 = 0 ∧
     Lab5.mat4rotx Real.cos Real.sin t 12 = 0 ∧
     Lab5.mat4rotx Real.cos Real.sin t 13 = 0 ∧
     Lab5.mat4rotx Real.cos Real.sin t 14 = 0 ∧
     Lab5.mat4rotx Real.cos Real.sin t 15 = 1) ∧
    applyVec (Lab2.mat4rotx Real.cos Real.sin t) ![0, 1, 0, 0]
      = ![0, Real.cos t, Real.sin t, 0] ∧
    applyVec (Lab3.mat4rotx Real.cos Real.sin t) ![0, 1, 0, 0]
      = ![0, Real.cos t, Real.sin t, 0] ∧
    applyVec (Lab5.mat4rotx Real.cos Real.sin t) ![0, 1, 0, 0]
      = ![0, Real.cos t, Real.sin t, 0] := by
  refine ⟨⟨rfl, rfl, rfl, rfl, rfl, rfl, rfl, rfl, rfl, rfl, rfl, rfl, rfl, rfl, rfl, rfl⟩, ⟨rfl, rfl, rfl, rfl, rfl, rfl, rfl, rfl, rfl, rfl, rfl, rfl, rfl, rfl, rfl, rfl⟩,
    ⟨rfl, rfl, rfl, rfl, rfl, rfl, rfl, rfl, rfl, rfl, rfl, rfl, rfl, rfl, rfl, rfl⟩, ?_, ?_, ?_⟩
  · rw [Lab2.mat4rotx, applyVec_vec16]
    norm_num
  · rw [Lab3.mat4rotx, applyVec_vec16]
    norm_num
  · rw [Lab5.mat4rotx, applyVec_vec16]
    norm_num

/-- C12. In lab2, lab3 and lab5, `mat4rotz(t)` is the right-handed rotation about
the Z axis: index 0 = cos t, index 1 = +sin t, index 4 = -sin t, index 5 = cos t,
index 10 = index 15 = 1, every other entry 0, and the vector `(1, 0, 0)` is sent
to `(cos t, sin t, 0)`. -/
theorem mat4rotz_right_handed (t : ℝ) :
    (Lab2.mat4rotz Real.cos Real.sin t 0 = Real.cos t ∧
     Lab2.mat4rotz Real.cos Real.sin t 1 = Real.sin t ∧
     Lab2.mat4rotz Real.cos Real.sin t 2 = 0 ∧
     Lab2.mat4rotz Real.cos Real.sin t 3 = 0 ∧
     Lab2.mat4rotz Real.cos Real.sin t 4 = -Real.sin t ∧
     Lab2.mat4rotz Real.cos Real.sin t 5 = Real.cos t ∧
     Lab2.mat4rotz Real.cos Real.sin t 6 = 0 ∧
     Lab2.mat4rotz Real.cos Real.sin t 7 = 0 ∧
     Lab2.mat4rotz Real.cos Real.sin t 8 = 0 ∧
     Lab2.mat4rotz Real.cos Real.sin t 9 = 0 ∧
     Lab2.mat4rotz Real.cos Real.sin t 10 = 1 ∧
     Lab2.mat4rotz Real.cos Real.sin t 11 = 0 ∧
     Lab2.mat4rotz Real.cos Real.sin t 12 = 0 ∧
     Lab2.mat4rotz Real.cos Real.sin t 13 = 0 ∧
     Lab2.mat4rotz Real.cos Real.sin t 14 = 0 ∧
     Lab2.mat4rotz Real.cos Real.sin t 15 = 1) ∧
    (Lab3.mat4rotz Real.cos Real.sin t 0 = Real.cos t ∧
     Lab3.mat4rotz Real.cos Real.sin t 1 = Real.sin t ∧
     Lab3.mat4rotz Real.cos Real.sin t 2 = 0 ∧
     Lab3.mat4rotz Real.cos Real.sin t 3 = 0 ∧
     Lab3.mat4rotz Real.cos Real.sin t 4 = -Real.sin t ∧
     Lab3.mat4rotz Real.cos Real.sin t 5 = Real.cos t ∧
     Lab3.mat4rotz Real.cos Real.sin t 6 = 0 ∧
     Lab3.mat4rotz Real.cos Real.sin t 7 = 0 ∧
     Lab3.mat4rotz Real.cos Real.sin t 8 = 0 ∧
     Lab3.mat4rotz Real.cos Real.sin t 9 = 0 ∧
     Lab3.mat4rotz Real.cos Real.sin t 10 = 1 ∧
     Lab3.mat4rotz Real.cos Real.sin t 11 = 0 ∧
     Lab3.mat4rotz Real.cos Real.sin t 12 = 0 ∧
     Lab3.mat4rotz Real.cos Real.sin t 13 = 0 ∧
     Lab3.mat4rotz Real.cos Real.sin t 14 = 0 ∧
     Lab3.mat4rotz Real.cos Real.sin t 15 = 1) ∧
    (Lab5.mat4rotz Real.cos Real.sin t 0 = Real.cos t ∧
     Lab5.mat4rotz Real.cos Real.sin t 1 = Real.sin t ∧
     Lab5.mat4rotz Real.cos Real.sin t 2 = 0 ∧
     Lab5.mat4rotz Real.cos Real.sin t 3 = 0 ∧
     Lab5.mat4rotz Real.cos Real.sin t 4 = -Real.sin t ∧
     Lab5.mat4rotz Real.cos Real.sin t 5 = Real.cos t ∧
     Lab5.mat4rotz Real.cos Real.sin t 6 = 0 ∧
     Lab5.mat4rotz Real.cos Real.sin t 7 = 0 ∧
     Lab5.mat4rotz Real.cos Real.sin t 8 = 0 ∧
     Lab5.mat4rotz Real.cos Real.sin t 9 = 0 ∧
     Lab5.mat4rotz Real.cos Real.sin t 10 = 1 ∧
     Lab5.mat4rotz Real.cos Real.sin t 11 = 0 ∧
     Lab5.mat4rotz Real.cos Real.sin t 12 = 0 ∧
     Lab5.mat4rotz Real.cos Real.sin t 13 = 0 ∧
     Lab5.mat4rotz Real.cos Real.sin t 14 = 0 ∧
     Lab5.mat4rotz Real.cos Real.sin t 15 = 1) ∧
    applyVec (Lab2.mat4rotz Real.cos Real.sin t) ![1, 0, 0, 0]
      = ![Real.cos t, Real.sin t, 0, 0] ∧
    applyVec (Lab3.mat4rotz Real.cos Real.sin t) ![1, 0, 0, 0]
      = ![Real.cos t, Real.sin t, 0, 0] ∧
    applyVec (Lab5.mat4rotz Real.cos Real.sin t) ![1, 0, 0, 0]
      = ![Real.cos t, Real.sin t, 0, 0] := by
  refine ⟨⟨rfl, rfl, rfl, rfl, rfl, rfl, rfl, rfl, rfl, rfl, rfl, rfl, rfl, rfl, rfl, rfl⟩, ⟨rfl, rfl, rfl, rfl, rfl, rfl, rfl, rfl, rfl, rfl, rfl, rfl, rfl, rfl, rfl, rfl⟩,
    ⟨rfl, rfl, rfl, rfl, rfl, rfl, rfl, rfl, rfl, rfl, rfl, rfl, rfl, rfl, rfl, rfl⟩, ?_, ?_, ?_⟩
  · rw [Lab2.mat4rotz, applyVec_vec16]
    norm_num
  · rw [Lab3.mat4rotz, applyVec_vec16]
    norm_num
  · rw [Lab5.mat4rotz, applyVec_vec16]
    norm_num

/-! ## Translation, scale and identity (C13 - C20) -/

/-- C13. `mat4translate(x, y, z)` is the identity array except that indices 12,
13, 14 hold x, y, z: indices 0, 5, 10, 15 are 1 and the remaining nine entries
are 0 (the same in lab2, lab3 and lab5). -/
theorem mat4translate_entries (x y z : ℝ) :
    (Lab2.mat4translate x y z 0 = 1 ∧
     Lab2.mat4translate x y z 1 = 0 ∧
     Lab2.mat4translate x y z 2 = 0 ∧
     Lab2.mat4translate x y z 3 = 0 ∧
     Lab2.mat4translate x y z 4 = 0 ∧
     Lab2.mat4translate x y z 5 = 1 ∧
     Lab2.mat4translate x y z 6 = 0 ∧
     Lab2.mat4translate x y z 7 = 0 ∧
     Lab2.mat4translate x y z 8 = 0 ∧
     Lab2.mat4translate x y z 9 = 0 ∧
     Lab2.mat4translate x y z 10 = 1 ∧
     Lab2.mat4translate x y z 11 = 0 ∧
     Lab2.mat4translate x y z 12 = x ∧
     Lab2.mat4translate x y z 13 = y ∧
     Lab2.mat4translate x y z 14 = z ∧
     Lab2.mat4translate x y z 15 = 1) ∧
    (Lab3.mat4translate x y z 0 = 1 ∧
     Lab3.mat4translate x y z 1 = 0 ∧
     Lab3.mat4translate x y z 2 = 0 ∧
     Lab3.mat4translate x y z 3 = 0 ∧
     Lab3.mat4translate x y z 4 = 0 ∧
     Lab3.mat4translate x y z 5 = 1 ∧
     Lab3.mat4translate x y z 6 = 0 ∧
     Lab3.mat4translate x y z 7 = 0 ∧
     Lab3.mat4translate x y z 8 = 0 ∧
     Lab3.mat4translate x y z 9 = 0 ∧
     Lab3.mat4translate x y z 10 = 1 ∧
     Lab3.mat4translate x y z 11 = 0 ∧
     Lab3.mat4translate x y z 12 = x ∧
     Lab3.mat4translate x y z 13 = y ∧
     Lab3.mat4translate x y z 14 = z ∧
     Lab3.mat4translate x y z 15 = 1) ∧
    (Lab5.mat4translate x y z 0 = 1 ∧
     Lab5.mat4translate x y z 1 = 0 ∧
     Lab5.mat4translate x y z 2 = 0 ∧
     Lab5.mat4translate x y z 3 = 0 ∧
     Lab5.mat4translate x y z 4 = 0 ∧
     Lab5.mat4translate x y z 5 = 1 ∧
     Lab5.mat4translate x y z 6 = 0 ∧
     Lab5.mat4translate x y z 7 = 0 ∧
     Lab5.mat4translate x y z 8 = 0 ∧
     Lab5.mat4translate x y z 9 = 0 ∧
     Lab5.mat4translate x y z 10 = 1 ∧
     Lab5.mat4translate x y z 11 = 0 ∧
     Lab5.mat4translate x y z 12 = x ∧
     Lab5.mat4translate x y z 13 = y ∧
     Lab5.mat4translate x y z 14 = z ∧
     Lab5.mat4translate x y z 15 = 1) :=
  ⟨⟨rfl, rfl, rfl, rfl, rfl, rfl, rfl, rfl, rfl, rfl, rfl, rfl, rfl, rfl, rfl, rfl⟩, ⟨rfl, rfl, rfl, rfl, rfl, rfl, rfl, rfl, rfl, rfl, rfl, rfl, rfl, rfl, rfl, rfl⟩,
    ⟨rfl, rfl, rfl, rfl, rfl, rfl, rfl, rfl, rfl, rfl, rfl, rfl, rfl, rfl, rfl, rfl⟩⟩

/-- Product of two translations in lab3. -/
theorem lab3_mat4translate_mul {α : Type} [Field α] (a1 a2 a3 b1 b2 b3 : α) :
    Lab3.mat4mult (Lab3.mat4translate a1 a2 a3) (Lab3.mat4translate b1 b2 b3)
      = Lab3.mat4translate (a1 + b1) (a2 + b2) (a3 + b3) := by
  apply Mat4.ext_idx
  intro col row
  rw [lab3_mat4mult_idx]
  simp only [Lab3.mat4translate, vec16_idx]
  fin_cases col <;> fin_cases row <;> simp <;> ring

/-- Product of two translations in lab5. -/
theorem lab5_mat4translate_mul {α : Type} [Field α] (a1 a2 a3 b1 b2 b3 : α) :
    Lab5.mat4mult (Lab5.mat4translate a1 a2 a3) (Lab5.mat4translate b1 b2 b3)
      = Lab5.mat4translate (a1 + b1) (a2 + b2) (a3 + b3) := by
  apply Mat4.ext_idx
  intro col row
  rw [lab5_mat4mult_idx]
  simp only [Lab5.mat4translate, vec16_idx]
  fin_cases col <;> fin_cases row <;> simp <;> ring

/-- C14. Translation composition in lab3 and lab5:
`mat4mult(mat4translate(a1,a2,a3), mat4translate(b1,b2,b3))` equals
`mat4translate(a1+b1, a2+b2, a3+b3)`; in particular
`mat4mult(mat4translate(1,2,3), mat4translate(4,5,6))` equals `mat4translate(5,7,9)`. -/
theorem mat4translate_composition (a1 a2 a3 b1 b2 b3 : ℝ) :
    Lab3.mat4mult (Lab3.mat4translate a1 a2 a3) (Lab3.mat4translate b1 b2 b3)
      = Lab3.mat4translate (a1 + b1) (a2 + b2) (a3 + b3) ∧
    Lab5.mat4mult (Lab5.mat4translate a1 a2 a3) (Lab5.mat4translate b1 b2 b3)
      = Lab5.mat4translate (a1 + b1) (a2 + b2) (a3 + b3) ∧
    Lab3.mat4mult (Lab3.mat4translate (1 : ℝ) 2 3) (Lab3.mat4translate 4 5 6)
      = Lab3.mat4translate 5 7 9 ∧
    Lab5.mat4mult (Lab5.mat4translate (1 : ℝ) 2 3) (Lab5.mat4translate 4 5 6)
      = Lab5.mat4translate 5 7 9 := by
  refine ⟨lab3_mat4translate_mul _ _ _ _ _ _, lab5_mat4translate_mul _ _ _ _ _ _, ?_, ?_⟩
  · have h := lab3_mat4translate_mul (1 : ℝ) 2 3 4 5 6
    norm_num at h
    exact h
  · have h := lab5_mat4translate_mul (1 : ℝ) 2 3 4 5 6
    norm_num at h
    exact h

/-- C15. Translation applied to a point in lab3 and lab5: the column-major
product of `mat4translate(x,y,z)` with `(px,py,pz,1)` is `(px+x, py+y, pz+z, 1)`,
and so is column 0 of `mat4mult(mat4translate(x,y,z), M)` for every `M` whose
column 0 is `(px,py,pz,1)`; `mat4translate(0,0,-5)` sends `(0,0,0,1)` to
`(0,0,-5,1)`. -/
theorem mat4translate_moves_point (x y z px py pz : ℝ) (M : Mat4 ℝ)
    (h0 : M 0 = px) (h1 : M 1 = py) (h2 : M 2 = pz) (h3 : M 3 = 1) :
    (applyVec (Lab3.mat4translate x y z) ![px, py, pz, 1] = ![px + x, py + y, pz + z, 1] ∧
      Lab3.mat4mult (Lab3.mat4translate x y z) M 0 = px + x ∧
      Lab3.mat4mult (Lab3.mat4translate x y z) M 1 = py + y ∧
      Lab3.mat4mult (Lab3.mat4translate x y z) M 2 = pz + z ∧
      Lab3.mat4mult (Lab3.mat4translate x y z) M 3 = 1 ∧
      applyVec (Lab3.mat4translate (0 : ℝ) 0 (-5)) ![0, 0, 0, 1] = ![0, 0, -5, 1]) ∧
    (applyVec (Lab5.mat4translate x y z) ![px, py, pz, 1] = ![px + x, py + y, pz + z, 1] ∧
      Lab5.mat4mult (Lab5.mat4translate x y z) M 0 = px + x ∧
      Lab5.mat4mult (Lab5.mat4translate x y z) M 1 = py + y ∧
      Lab5.mat4mult (Lab5.mat4translate x y z) M 2 = pz + z ∧
      Lab5.mat4mult (Lab5.mat4translate x y z) M 3 = 1 ∧
      applyVec (Lab5.mat4translate (0 : ℝ) 0 (-5)) ![0, 0, 0, 1] = ![0, 0, -5, 1]) := by
  refine ⟨⟨?_, ?_, ?_, ?_, ?_, ?_⟩, ⟨?_, ?_, ?_, ?_, ?_, ?_⟩⟩
  · rw [Lab3.mat4translate, applyVec_vec16]
    norm_num
  · show 1 * M 0 + 0 * M 1 + 0 * M 2 + x * M 3 = px + x
    rw [h0, h3]
    ring
  · show 0 * M 0 + 1 * M 1 + 0 * M 2 + y * M 3 = py + y
    rw [h1, h3]
    ring
  · show 0 * M 0 + 0 * M 1 + 1 * M 2 + z * M 3 = pz + z
    rw [h2, h3]
    ring
  · show 0 * M 0 + 0 * M 1 + 0 * M 2 + 1 * M 3 = 1
    rw [h3]
    ring
  · rw [Lab3.mat4translate, applyVec_vec16]
    norm_num
  · rw [Lab5.mat4translate, applyVec_vec16]
    norm_num
  · show 1 * M 0 + 0 * M 1 + 0 * M 2 + x * M 3 = px + x
    rw [h0, h3]
    ring
  · show 0 * M 0 + 1 * M 1 + 0 * M 2 + y * M 3 = py + y
    rw [h1, h3]
    ring
  · show 0 * M 0 + 0 * M 1 + 1 * M 2 + z * M 3 = pz + z
    rw [h2, h3]
    ring
  · show 0 * M 0 + 0 * M 1 + 0 * M 2 + 1 * M 3 = 1
    rw [h3]
    ring
  · rw [Lab5.mat4translate, applyVec_vec16]
    norm_num

/-- C15 at the translation `(0, 0, -5)`, the point `(0, 0, 0, 1)` and a matrix
whose column 0 is that point. -/
theorem mat4translate_moves_point_witness :
    ((![0, 0, 0, 1, 0, 1, 0, 0, 0, 0, 1, 0, 1, 0, 0, 0] : Mat4 ℝ) 0 = 0 ∧
      (![0, 0, 0, 1, 0, 1, 0, 0, 0, 0, 1, 0, 1, 0, 0, 0] : Mat4 ℝ) 1 = 0 ∧
      (![0, 0, 0, 1, 0, 1, 0, 0, 0, 0, 1, 0, 1, 0, 0, 0] : Mat4 ℝ) 2 = 0 ∧
      (![0, 0, 0, 1, 0, 1, 0, 0, 0, 0, 1, 0, 1, 0, 0, 0] : Mat4 ℝ) 3 = 1) ∧
    (applyVec (Lab3.mat4translate (0 : ℝ) 0 (-5)) ![0, 0, 0, 1]
        = ![0 + 0, 0 + 0, 0 + -5, 1] ∧
      Lab3.mat4mult (Lab3.mat4translate (0 : ℝ) 0 (-5))
        ![0, 0, 0, 1, 0, 1, 0, 0, 0, 0, 1, 0, 1, 0, 0, 0] 0 = 0 + 0 ∧
      Lab3.mat4mult (Lab3.mat4translate (0 : ℝ) 0 (-5))
        ![0, 0, 0, 1, 0, 1, 0, 0, 0, 0, 1, 0, 1, 0, 0, 0] 1 = 0 + 0 ∧
      Lab3.mat4mult (Lab3.mat4translate (0 : ℝ) 0 (-5))
        ![0, 0, 0, 1, 0, 1, 0, 0, 0, 0, 1, 0, 1, 0, 0, 0] 2 = 0 + -5 ∧
      Lab3.mat4mult (Lab3.mat4translate (0 : ℝ) 0 (-5))
        ![0, 0, 0, 1, 0, 1, 0, 0, 0, 0, 1, 0, 1, 0, 0, 0] 3 = 1 ∧
      applyVec (Lab3.mat4translate (0 : ℝ) 0 (-5)) ![0, 0, 0, 1] = ![0, 0, -5, 1]) ∧
    (applyVec (Lab5.mat4translate (0 : ℝ) 0 (-5)) ![0, 0, 0, 1]
        = ![0 + 0, 0 + 0, 0 + -5, 1] ∧
      Lab5.mat4mult (Lab5.mat4translate (0 : ℝ) 0 (-5))
        ![0, 0, 0, 1, 0, 1, 0, 0, 0, 0, 1, 0, 1, 0, 0, 0] 0 = 0 + 0 ∧
      Lab5.mat4mult (Lab5.mat4translate (0 : ℝ) 0 (-5))
        ![0, 0, 0, 1, 0, 1, 0, 0, 0, 0, 1, 0, 1, 0, 0, 0] 1 = 0 + 0 ∧
      Lab5.mat4mult (Lab5.mat4translate (0 : ℝ) 0 (-5))
        ![0, 0, 0, 1, 0, 1, 0, 0, 0, 0, 1, 0, 1, 0, 0, 0] 2 = 0 + -5 ∧
      Lab5.mat4mult (Lab5.mat4translate (0 : ℝ) 0 (-5))
        ![0, 0, 0, 1, 0, 1, 0, 0, 0, 0, 1, 0, 1, 0, 0, 0] 3 = 1 ∧
      applyVec (Lab5.mat4translate (0 : ℝ) 0 (-5)) ![0, 0, 0, 1] = ![0, 0, -5, 1]) :=
  ⟨⟨rfl, rfl, rfl, rfl⟩,
    mat4translate_moves_point 0 0 (-5) 0 0 0
      ![0, 0, 0, 1, 0, 1, 0, 0, 0, 0, 1, 0, 1, 0, 0, 0] rfl rfl rfl rfl⟩

/-- C16. `mat4scale(s)` has `s` at the diagonal indices 0, 5 and 10, the
homogeneous 1 at index 15 and 0 at the twelve other indices (the same in lab2,
lab3 and lab5). -/
theorem mat4scale_entries (s : ℝ) :
    (Lab2.mat4scale s 0 = s ∧
     Lab2.mat4scale s 1 = 0 ∧
     Lab2.mat4scale s 2 = 0 ∧
     Lab2.mat4scale s 3 = 0 ∧
     Lab2.mat4scale s 4 = 0 ∧
     Lab2.mat4scale s 5 = s ∧
     Lab2.mat4scale s 6 = 0 ∧
     Lab2.mat4scale s 7 = 0 ∧
     Lab2.mat4scale s 8 = 0 ∧
     Lab2.mat4scale s 9 = 0 ∧
     Lab2.mat4scale s 10 = s ∧
     Lab2.mat4scale s 11 = 0 ∧
     Lab2.mat4scale s 12 = 0 ∧
     Lab2.mat4scale s 13 = 0 ∧
     Lab2.mat4scale s 14 = 0 ∧
     Lab2.mat4scale s 15 = 1) ∧
    (Lab3.mat4scale s 0 = s ∧
     Lab3.mat4scale s 1 = 0 ∧
     Lab3.mat4scale s 2 = 0 ∧
     Lab3.mat4scale s 3 = 0 ∧
     Lab3.mat4scale s 4 = 0 ∧
     Lab3.mat4scale s 5 = s ∧
     Lab3.mat4scale s 6 = 0 ∧
     Lab3.mat4scale s 7 = 0 ∧
     Lab3.mat4scale s 8 = 0 ∧
     Lab3.mat4scale s 9 = 0 ∧
     Lab3.mat4scale s 10 = s ∧
     Lab3.mat4scale s 11 = 0 ∧
     Lab3.mat4scale s 12 = 0 ∧
     Lab3.mat4scale s 13 = 0 ∧
     Lab3.mat4scale s 14 = 0 ∧
     Lab3.mat4scale s 15 = 1) ∧
    (Lab5.mat4scale s 0 = s ∧
     Lab5.mat4scale s 1 = 0 ∧
     Lab5.mat4scale s 2 = 0 ∧
     Lab5.mat4scale s 3 = 0 ∧
     Lab5.mat4scale s 4 = 0 ∧
     Lab5.mat4scale s 5 = s ∧
     Lab5.mat4scale s 6 = 0 ∧
     Lab5.mat4scale s 7 = 0 ∧
     Lab5.mat4scale s 8 = 0 ∧
     Lab5.mat4scale s 9 = 0 ∧
     Lab5.mat4scale s 10 = s ∧
     Lab5.mat4scale s 11 = 0 ∧
     Lab5.mat4scale s 12 = 0 ∧
     Lab5.mat4scale s 13 = 0 ∧
     Lab5.mat4scale s 14 = 0 ∧
     Lab5.mat4scale s 15 = 1) :=
  ⟨⟨rfl, rfl, rfl, rfl, rfl, rfl, rfl, rfl, rfl, rfl, rfl, rfl, rfl, rfl, rfl, rfl⟩, ⟨rfl, rfl, rfl, rfl, rfl, rfl, rfl, rfl, rfl, rfl, rfl, rfl, rfl, rfl, rfl, rfl⟩,
    ⟨rfl, rfl, rfl, rfl, rfl, rfl, rfl, rfl, rfl, rfl, rfl, rfl, rfl, rfl, rfl, rfl⟩⟩

/-- Product of two uniform scalings in lab2. -/
theorem lab2_mat4scale_mul {α : Type} [Field α] (s t : α) :
    Lab2.mat4mult (Lab2.mat4scale s) (Lab2.mat4scale t) = Lab2.mat4scale (s * t) := by
  apply Mat4.ext_idx
  intro col row
  rw [lab2_mat4mult_idx]
  simp only [Lab2.mat4scale, vec16_idx]
  fin_cases col <;> fin_cases row <;> simp [Matrix.vecHead, Matrix.vecTail]

/-- Product of two uniform scalings in lab3. -/
theorem lab3_mat4scale_mul {α : Type} [Field α] (s t : α) :
    Lab3.mat4mult (Lab3.mat4scale s) (Lab3.mat4scale t) = Lab3.mat4scale (s * t) := by
  apply Mat4.ext_idx
  intro col row
  rw [lab3_mat4mult_idx]
  simp only [Lab3.mat4scale, vec16_idx]
  fin_cases col <;> fin_cases row <;> simp [Matrix.vecHead, Matrix.vecTail]

/-- Product of two uniform scalings in lab5. -/
theorem lab5_mat4scale_mul {α : Type} [Field α] (s t : α) :
    Lab5.mat4mult (Lab5.mat4scale s) (Lab5.mat4scale t) = Lab5.mat4scale (s * t) := by
  apply Mat4.ext_idx
  intro col row
  rw [lab5_mat4mult_idx]
  simp only [Lab5.mat4scale, vec16_idx]
  fin_cases col <;> fin_cases row <;> simp [Matrix.vecHead, Matrix.vecTail]

/-- C17. Scale composition: `mat4mult(mat4scale(s), mat4scale(t))` equals
`mat4scale(s*t)` with the `mat4mult` of every lab, lab2 included; in particular
`mat4mult(mat4scale(2), mat4scale(3))` equals `mat4scale(6)`. -/
theorem mat4scale_composition (s t : ℝ) :
    (Lab2.mat4mult (Lab2.mat4scale s) (Lab2.mat4scale t) = Lab2.mat4scale (s * t) ∧
      Lab2.mat4mult (Lab2.mat4scale (2 : ℝ)) (Lab2.mat4scale 3) = Lab2.mat4scale 6) ∧
    (Lab3.mat4mult (Lab3.mat4scale s) (Lab3.mat4scale t) = Lab3.mat4scale (s * t) ∧
      Lab3.mat4mult (Lab3.mat4scale (2 : ℝ)) (Lab3.mat4scale 3) = Lab3.mat4scale 6) ∧
    (Lab5.mat4mult (Lab5.mat4scale s) (Lab5.mat4scale t) = Lab5.mat4scale (s * t) ∧
      Lab5.mat4mult (Lab5.mat4scale (2 : ℝ)) (Lab5.mat4scale 3) = Lab5.mat4scale 6) := by
  refine ⟨⟨lab2_mat4scale_mul s t, ?_⟩, ⟨lab3_mat4scale_mul s t, ?_⟩,
    ⟨lab5_mat4scale_mul s t, ?_⟩⟩
  · have h := lab2_mat4scale_mul (2 : ℝ) 3
    norm_num at h
    exact h
  · have h := lab3_mat4scale_mul (2 : ℝ) 3
    norm_num at h
    exact h
  · have h := lab5_mat4scale_mul (2 : ℝ) 3
    norm_num at h
    exact h

/-- C18. Rotation periodicity: with the exact real sine and cosine, the
`mat4roty` of each lab gives `mat4identity()` at the angle 0 and at the angle
2*pi. -/
theorem mat4roty_periodicity :
    (Lab2.mat4roty Real.cos Real.sin 0 = Lab2.mat4identity ∧
      Lab2.mat4roty Real.cos Real.sin (2 * Real.pi) = Lab2.mat4identity) ∧
    (Lab3.mat4roty Real.cos Real.sin 0 = Lab3.mat4identity ∧
      Lab3.mat4roty Real.cos Real.sin (2 * Real.pi) = Lab3.mat4identity) ∧
    (Lab5.mat4roty Real.cos Real.sin 0 = Lab5.mat4identity ∧
      Lab5.mat4roty Real.cos Real.sin (2 * Real.pi) = Lab5.mat4identity) := by
  refine ⟨⟨?_, ?_⟩, ⟨?_, ?_⟩, ⟨?_, ?_⟩⟩
  · rw [Lab2.mat4roty, Lab2.mat4identity, Real.cos_zero, Real.sin_zero, neg_zero]
  · rw [Lab2.mat4roty, Lab2.mat4identity, Real.cos_two_pi, Real.sin_two_pi, neg_zero]
  · rw [Lab3.mat4roty, Lab3.mat4identity, Real.cos_zero, Real.sin_zero, neg_zero]
  · rw [Lab3.mat4roty, Lab3.mat4identity, Real.cos_two_pi, Real.sin_two_pi, neg_zero]
  · rw [Lab5.mat4roty, Lab5.mat4identity, Real.cos_zero, Real.sin_zero, neg_zero]
  · rw [Lab5.mat4roty, Lab5.mat4identity, Real.cos_two_pi, Real.sin_two_pi, neg_zero]

/-- C19. `mat4identity()` returns the array with 1 at indices 0, 5, 10, 15 and 0
at every other index (the same in lab2, lab3 and lab5). -/
theorem mat4identity_entries :
    ((Lab2.mat4identity : Mat4 ℝ) 0 = 1 ∧
     (Lab2.mat4identity : Mat4 ℝ) 1 = 0 ∧
     (Lab2.mat4identity : Mat4 ℝ) 2 = 0 ∧
     (Lab2.mat4identity : Mat4 ℝ) 3 = 0 ∧
     (Lab2.mat4identity : Mat4 ℝ) 4 = 0 ∧
     (Lab2.mat4identity : Mat4 ℝ) 5 = 1 ∧
     (Lab2.mat4identity : Mat4 ℝ) 6 = 0 ∧
     (Lab2.mat4identity : Mat4 ℝ) 7 = 0 ∧
     (Lab2.mat4identity : Mat4 ℝ) 8 = 0 ∧
     (Lab2.mat4identity : Mat4 ℝ) 9 = 0 ∧
     (Lab2.mat4identity : Mat4 ℝ) 10 = 1 ∧
     (Lab2.mat4identity : Mat4 ℝ) 11 = 0 ∧
     (Lab2.mat4identity : Mat4 ℝ) 12 = 0 ∧
     (Lab2.mat4identity : Mat4 ℝ) 13 = 0 ∧
     (Lab2.mat4identity : Mat4 ℝ) 14 = 0 ∧
     (Lab2.mat4identity : Mat4 ℝ) 15 = 1) ∧
    ((Lab3.mat4identity : Mat4 ℝ) 0 = 1 ∧
     (Lab3.mat4identity : Mat4 ℝ) 1 = 0 ∧
     (Lab3.mat4identity : Mat4 ℝ) 2 = 0 ∧
     (Lab3.mat4identity : Mat4 ℝ) 3 = 0 ∧
     (Lab3.mat4identity : Mat4 ℝ) 4 = 0 ∧
     (Lab3.mat4identity : Mat4 ℝ) 5 = 1 ∧
     (Lab3.mat4identity : Mat4 ℝ) 6 = 0 ∧
     (Lab3.mat4identity : Mat4 ℝ) 7 = 0 ∧
     (Lab3.mat4identity : Mat4 ℝ) 8 = 0 ∧
     (Lab3.mat4identity : Mat4 ℝ) 9 = 0 ∧
     (Lab3.mat4identity : Mat4 ℝ) 10 = 1 ∧
     (Lab3.mat4identity : Mat4 ℝ) 11 = 0 ∧
     (Lab3.mat4identity : Mat4 ℝ) 12 = 0 ∧
     (Lab3.mat4identity : Mat4 ℝ) 13 = 0 ∧
     (Lab3.mat4identity : Mat4 ℝ) 14 = 0 ∧
     (Lab3.mat4identity : Mat4 ℝ) 15 = 1) ∧
    ((Lab5.mat4identity : Mat4 ℝ) 0 = 1 ∧
     (Lab5.mat4identity : Mat4 ℝ) 1 = 0 ∧
     (Lab5.mat4identity : Mat4 ℝ) 2 = 0 ∧
     (Lab5.mat4identity : Mat4 ℝ) 3 = 0 ∧
     (Lab5.mat4identity : Mat4 ℝ) 4 = 0 ∧
     (Lab5.mat4identity : Mat4 ℝ) 5 = 1 ∧
     (Lab5.mat4identity : Mat4 ℝ) 6 = 0 ∧
     (Lab5.mat4identity : Mat4 ℝ) 7 = 0 ∧
     (Lab5.mat4identity : Mat4 ℝ) 8 = 0 ∧
     (Lab5.mat4identity : Mat4 ℝ) 9 = 0 ∧
     (Lab5.mat4identity : Mat4 ℝ) 10 = 1 ∧
     (Lab5.mat4identity : Mat4 ℝ) 11 = 0 ∧
     (Lab5.mat4identity : Mat4 ℝ) 12 = 0 ∧
     (Lab5.mat4identity : Mat4 ℝ) 13 = 0 ∧
     (Lab5.mat4identity : Mat4 ℝ) 14 = 0 ∧
     (Lab5.mat4identity : Mat4 ℝ) 15 = 1) :=
  ⟨⟨rfl, rfl, rfl, rfl, rfl, rfl, rfl, rfl, rfl, rfl, rfl, rfl, rfl, rfl, rfl, rfl⟩, ⟨rfl, rfl, rfl, rfl, rfl, rfl, rfl, rfl, rfl, rfl, rfl, rfl, rfl, rfl, rfl, rfl⟩,
    ⟨rfl, rfl, rfl, rfl, rfl, rfl, rfl, rfl, rfl, rfl, rfl, rfl, rfl, rfl, rfl, rfl⟩⟩

/-- C20. Multiplication is not commutative: with `a = mat4translate(6,3,5)` and
`b = mat4scale(2)`, `mat4mult(a, b)` and `mat4mult(b, a)` differ (6 against 12 at
index 12 in lab3 and lab5, at index 3 in lab2). -/
theorem mat4mult_not_commutative :
    (Lab5.mat4mult (Lab5.mat4translate (6 : ℝ) 3 5) (Lab5.mat4scale 2) 12 = 6 ∧
      Lab5.mat4mult (Lab5.mat4scale 2) (Lab5.mat4translate (6 : ℝ) 3 5) 12 = 12 ∧
      Lab5.mat4mult (Lab5.mat4translate (6 : ℝ) 3 5) (Lab5.mat4scale 2)
        ≠ Lab5.mat4mult (Lab5.mat4scale 2) (Lab5.mat4translate (6 : ℝ) 3 5)) ∧
    (Lab3.mat4mult (Lab3.mat4translate (6 : ℝ) 3 5) (Lab3.mat4scale 2) 12 = 6 ∧
      Lab3.mat4mult (Lab3.mat4scale 2) (Lab3.mat4translate (6 : ℝ) 3 5) 12 = 12 ∧
      Lab3.mat4mult (Lab3.mat4translate (6 : ℝ) 3 5) (Lab3.mat4scale 2)
        ≠ Lab3.mat4mult (Lab3.mat4scale 2) (Lab3.mat4translate (6 : ℝ) 3 5)) ∧
    (Lab2.mat4mult (Lab2.mat4translate (6 : ℝ) 3 5) (Lab2.mat4scale 2) 3 = 6 ∧
      Lab2.mat4mult (Lab2.mat4scale 2) (Lab2.mat4translate (6 : ℝ) 3 5) 3 = 12 ∧
      Lab2.mat4mult (Lab2.mat4translate (6 : ℝ) 3 5) (Lab2.mat4scale 2)
        ≠ Lab2.mat4mult (Lab2.mat4scale 2) (Lab2.mat4translate (6 : ℝ) 3 5)) := by
  have e5 : Lab5.mat4mult (Lab5.mat4translate (6 : ℝ) 3 5) (Lab5.mat4scale 2) 12 = 6 := by
    show (1 : ℝ) * 0 + 0 * 0 + 0 * 0 + 6 * 1 = 6
    norm_num
  have f5 : Lab5.mat4mult (Lab5.mat4scale 2) (Lab5.mat4translate (6 : ℝ) 3 5) 12 = 12 := by
    show (2 : ℝ) * 6 + 0 * 3 + 0 * 5 + 0 * 1 = 12
    norm_num
  have e3 : Lab3.mat4mult (Lab3.mat4translate (6 : ℝ) 3 5) (Lab3.mat4scale 2) 12 = 6 := by
    show (1 : ℝ) * 0 + 0 * 0 + 0 * 0 + 6 * 1 = 6
    norm_num
  have f3 : Lab3.mat4mult (Lab3.mat4scale 2) (Lab3.mat4translate (6 : ℝ) 3 5) 12 = 12 := by
    show (2 : ℝ) * 6 + 0 * 3 + 0 * 5 + 0 * 1 = 12
    norm_num
  have e2 : Lab2.mat4mult (Lab2.mat4translate (6 : ℝ) 3 5) (Lab2.mat4scale 2) 3 = 6 := by
    show (1 : ℝ) * 0 + 0 * 0 + 0 * 0 + 6 * 1 = 6
    norm_num
  have f2 : Lab2.mat4mult (Lab2.mat4scale 2) (Lab2.mat4translate (6 : ℝ) 3 5) 3 = 12 := by
    show (2 : ℝ) * 6 + 0 * 3 + 0 * 5 + 0 * 1 = 12
    norm_num
  refine ⟨⟨e5, f5, ?_⟩, ⟨e3, f3, ?_⟩, ⟨e2, f2, ?_⟩⟩
  · intro h
    have h12 := congrFun h 12
    rw [e5, f5] at h12
    norm_num at h12
  · intro h
    have h12 := congrFun h 12
    rw [e3, f3] at h12
    norm_num at h12
  · intro h
    have h3 := congrFun h 3
    rw [e2, f2] at h3
    norm_num at h3

/-! ## Perspective projection, continued (C21, C22) -/

/-- The tangent of half a field of view in `(0, pi)` is positive. -/
theorem tan_half_fov_pos (vfov : ℝ) (h0 : 0 < vfov) (hpi : vfov < Real.pi) :
    0 < Real.tan (vfov / 2) :=
  Real.tan_pos_of_pos_of_lt_pi_div_two (by linarith) (by linarith)

/-- C21, amended. With float arithmetic read as exact real arithmetic: under
`zfar > znear > 0`, `aspect > 0` and `0 < vfov < pi`, every
division in `mat4perspective` has a non-zero denominator: `cos(vfov/2) > 0`, so
`tan(vfov/2)` is defined, and it is positive, `aspect` and `zfar - znear` are
non-zero; `f = 1/tan(vfov/2)` (index 5) is positive, each quotient in the
returned array, multiplied by its denominator, gives back its numerator, and the
entries at indices 10 and 14 are negative reals. -/
theorem mat4perspective_divisions_defined (vfov aspect znear zfar : ℝ)
    (hnear : 0 < znear) (hfar : znear < zfar) (haspect : 0 < aspect)
    (hfov0 : 0 < vfov) (hfovpi : vfov < Real.pi) :
    0 < Real.cos (vfov / 2) ∧
    0 < Real.tan (vfov / 2) ∧
    aspect ≠ 0 ∧
    zfar - znear ≠ 0 ∧
    0 < Lab5.mat4perspective Real.tan vfov aspect znear zfar 5 ∧
    0 < Lab5.mat4perspective Real.tan vfov aspect znear zfar 0 ∧
    Lab5.mat4perspective Real.tan vfov aspect znear zfar 5 * Real.tan (vfov / 2) = 1 ∧
    Lab5.mat4perspective Real.tan vfov aspect znear zfar 0 * aspect
      = Lab5.mat4perspective Real.tan vfov aspect znear zfar 5 ∧
    Lab5.mat4perspective Real.tan vfov aspect znear zfar 10 * (zfar - znear)
      = -(zfar + znear) ∧
    Lab5.mat4perspective Real.tan vfov aspect znear zfar 14 * (zfar - znear)
      = -(2 * zfar * znear) ∧
    Lab5.mat4perspective Real.tan vfov aspect znear zfar 10 < 0 ∧
    Lab5.mat4perspective Real.tan vfov aspect znear zfar 14 < 0 := by
  have hcos : 0 < Real.cos (vfov / 2) :=
    Real.cos_pos_of_mem_Ioo ⟨by linarith, by linarith⟩
  have htan : 0 < Real.tan (vfov / 2) := tan_half_fov_pos vfov hfov0 hfovpi
  have hd : zfar - znear ≠ 0 := by
    have : 0 < zfar - znear := by linarith
    exact this.ne.symm
  have ha : aspect ≠ 0 := haspect.ne.symm
  have ht : Real.tan (vfov / 2) ≠ 0 := htan.ne.symm
  have hdpos : 0 < zfar - znear := by linarith
  have hfpos : 0 < zfar := by linarith
  refine ⟨hcos, htan, ha, hd, ?_, ?_, ?_, ?_, ?_, ?_, ?_, ?_⟩
  · show 0 < 1 / Real.tan (vfov / 2)
    positivity
  · show 0 < 1 / Real.tan (vfov / 2) / aspect
    positivity
  · show 1 / Real.tan (vfov / 2) * Real.tan (vfov / 2) = 1
    field_simp
  · show 1 / Real.tan (vfov / 2) / aspect * aspect = 1 / Real.tan (vfov / 2)
    field_simp
    ring
  · show (-(zfar + znear)) / (zfar - znear) * (zfar - znear) = -(zfar + znear)
    field_simp
  · show (-(2 * zfar * znear)) / (zfar - znear) * (zfar - znear) = -(2 * zfar * znear)
    field_simp
  · show (-(zfar + znear)) / (zfar - znear) < 0
    exact div_neg_of_neg_of_pos (by linarith) hdpos
  · show (-(2 * zfar * znear)) / (zfar - znear) < 0
    exact div_neg_of_neg_of_pos (by nlinarith [mul_pos hfpos hnear]) hdpos

/-- C21 at the call of lab5's render loop, `mat4perspective(M_PI / 4, 1.0, 0.1, 100.0)`. -/
theorem mat4perspective_divisions_defined_witness :
    ((0 : ℝ) < 0.1 ∧ (0.1 : ℝ) < 100 ∧ (0 : ℝ) < 1 ∧ 0 < Real.pi / 4 ∧
      Real.pi / 4 < Real.pi) ∧
    0 < Real.cos (Real.pi / 4 / 2) ∧
    0 < Real.tan (Real.pi / 4 / 2) ∧
    (1 : ℝ) ≠ 0 ∧
    (100 : ℝ) - 0.1 ≠ 0 ∧
    0 < Lab5.mat4perspective Real.tan (Real.pi / 4) 1 0.1 100 5 ∧
    0 < Lab5.mat4perspective Real.tan (Real.pi / 4) 1 0.1 100 0 ∧
    Lab5.mat4perspective Real.tan (Real.pi / 4) 1 0.1 100 5 * Real.tan (Real.pi / 4 / 2) = 1 ∧
    Lab5.mat4perspective Real.tan (Real.pi / 4) 1 0.1 100 0 * 1
      = Lab5.mat4perspective Real.tan (Real.pi / 4) 1 0.1 100 5 ∧
    Lab5.mat4perspective Real.tan (Real.pi / 4) 1 0.1 100 10 * (100 - 0.1)
      = -(100 + 0.1) ∧
    Lab5.mat4perspective Real.tan (Real.pi / 4) 1 0.1 100 14 * (100 - 0.1)
      = -(2 * 100 * 0.1) ∧
    Lab5.mat4perspective Real.tan (Real.pi / 4) 1 0.1 100 10 < 0 ∧
    Lab5.mat4perspective Real.tan (Real.pi / 4) 1 0.1 100 14 < 0 :=
  ⟨⟨by norm_num, by norm_num, by norm_num, by positivity, by linarith [Real.pi_pos]⟩,
    mat4perspective_divisions_defined (Real.pi / 4) 1 0.1 100
      (by norm_num) (by norm_num) (by norm_num) (by positivity) (by linarith [Real.pi_pos])⟩

/-- C23. `mat4print(m)` prints a header line and then four lines of four
values: line `r` (r = 0..3) is one `printf` of four `%6.2f` fields with the
arguments `m[r]`, `m[r+4]`, `m[r+8]`, `m[r+12]` in that order, which is row `r`
under the column-major layout (element at row r, column c at index c*4+r). The
same holds in lab2, lab3 and lab5. -/
theorem mat4print_rows (m : Mat4 ℝ) (r : Fin 4) :
    (Lab2.mat4print m)[0]? = some ("Matrix: \n", []) ∧
    (Lab2.mat4print m)[r.val + 1]?
      = some ("%6.2f %6.2f %6.2f %6.2f \n",
          [m ⟨r.val, by omega⟩, m ⟨r.val + 4, by omega⟩, m ⟨r.val + 8, by omega⟩,
            m ⟨r.val + 12, by omega⟩]) ∧
    (Lab2.mat4print m)[r.val + 1]?
      = some ("%6.2f %6.2f %6.2f %6.2f \n",
          [m (idx 0 r), m (idx 1 r), m (idx 2 r), m (idx 3 r)]) ∧
    (Lab2.mat4print m).length = 6 ∧
    Lab3.mat4print m = Lab2.mat4print m ∧
    Lab5.mat4print m = Lab2.mat4print m := by
  refine ⟨rfl, ?_, ?_, rfl, rfl, rfl⟩
  · fin_cases r <;> rfl
  · fin_cases r <;> rfl

/-- Lab2's `mat4mult` on a translation and a uniform scaling. -/
theorem lab2_mat4translate_mul_scale {α : Type} [Field α] (x y z s : α) :
    Lab2.mat4mult (Lab2.mat4translate x y z) (Lab2.mat4scale s)
      = ![s, 0, 0, x,
          0, s, 0, y,
          0, 0, s, z,
          0, 0, 0, 1] := by
  apply Mat4.ext_idx
  intro col row
  rw [lab2_mat4mult_idx]
  simp only [Lab2.mat4translate, Lab2.mat4scale, vec16_idx]
  fin_cases col <;> fin_cases row <;> simp [Matrix.vecHead, Matrix.vecTail]

/-- C24, evaluated on the code. For all x, y, z and s, lab2's
`mat4mult(mat4translate(x,y,z), mat4scale(s))` has x, y, z at indices 3, 7, 11
(the bottom row) and 0 at indices 12, 13, 14; for the call of lab2's `main`,
x, y, z = 6, 3, 5 and s = 2, index 12 is 0 where the claim has 6, and `mat4print`
shows `6 3 5 1` as its last line instead of as the last column. -/
theorem lab2_printed_product_is_transposed (x y z s : ℝ) :
    Lab2.mat4mult (Lab2.mat4translate x y z) (Lab2.mat4scale s)
      = ![s, 0, 0, x,
          0, s, 0, y,
          0, 0, s, z,
          0, 0, 0, 1] ∧
    Lab2.mat4mult (Lab2.mat4translate (6 : ℝ) 3 5) (Lab2.mat4scale 2) 12 = 0 ∧
    Lab2.mat4mult (Lab2.mat4translate (6 : ℝ) 3 5) (Lab2.mat4scale 2) 13 = 0 ∧
    Lab2.mat4mult (Lab2.mat4translate (6 : ℝ) 3 5) (Lab2.mat4scale 2) 14 = 0 ∧
    Lab2.mat4mult (Lab2.mat4translate (6 : ℝ) 3 5) (Lab2.mat4scale 2) 12 ≠ 6 ∧
    (Lab2.mat4print (Lab2.mat4mult (Lab2.mat4translate (6 : ℝ) 3 5) (Lab2.mat4scale 2)))[4]?
      = some ("%6.2f %6.2f %6.2f %6.2f \n", [6, 3, 5, 1]) := by
  have key := lab2_mat4translate_mul_scale (6 : ℝ) 3 5 2
  have h12 : Lab2.mat4mult (Lab2.mat4translate (6 : ℝ) 3 5) (Lab2.mat4scale 2) 12 = 0 := by
    rw [key]
    rfl
  refine ⟨lab2_mat4translate_mul_scale x y z s, h12, ?_, ?_, ?_, ?_⟩
  · rw [key]
    rfl
  · rw [key]
    rfl
  · rw [h12]
    norm_num
  · rw [key]
    rfl

/-- Reading the transpose at row `row`, column `col`. -/
theorem transpose_idx {α : Type} (m : Mat4 α) (col row : Fin 4) :
    transpose m (idx col row) = m (idx row col) := by
  fin_cases col <;> fin_cases row <;> rfl

/-- Lab2's `mat4mult` is the transpose of lab3's. -/
theorem lab2_mat4mult_eq_transpose_lab3 {α : Type} [Field α] (a b : Mat4 α)
    (row col : Fin 4) :
    Lab2.mat4mult a b (idx row col) = Lab3.mat4mult a b (idx col row) := by
  rw [lab2_mat4mult_idx, lab3_mat4mult_idx]

/-- Lab2's `mat4mult` is the transpose of lab5's. -/
theorem lab2_mat4mult_eq_transpose_lab5 {α : Type} [Field α] (a b : Mat4 α)
    (row col : Fin 4) :
    Lab2.mat4mult a b (idx row col) = Lab5.mat4mult a b (idx col row) := by
  rw [lab2_mat4mult_idx, lab5_mat4mult_idx]

/-- C25. Lab2's `mat4mult` returns the transpose of what the `mat4mult` of lab3
and lab5 returns: `lab2.mat4mult(a, b)[row*4+col] = lab3.mat4mult(a, b)[col*4+row]`
for all row, col in 0..3; equivalently `lab2.mat4mult(a, b)` equals
`lab3.mat4mult(transpose(b), transpose(a))`. -/
theorem lab2_mat4mult_is_transposed_product (a b : Mat4 ℝ) (row col : Fin 4) :
    (Lab2.mat4mult a b (idx row col) = Lab3.mat4mult a b (idx col row) ∧
      Lab2.mat4mult a b = transpose (Lab3.mat4mult a b) ∧
      Lab2.mat4mult a b = Lab3.mat4mult (transpose b) (transpose a)) ∧
    (Lab2.mat4mult a b (idx row col) = Lab5.mat4mult a b (idx col row) ∧
      Lab2.mat4mult a b = transpose (Lab5.mat4mult a b) ∧
      Lab2.mat4mult a b = Lab5.mat4mult (transpose b) (transpose a)) := by
  refine ⟨⟨lab2_mat4mult_eq_transpose_lab3 a b row col, ?_, ?_⟩,
    ⟨lab2_mat4mult_eq_transpose_lab5 a b row col, ?_, ?_⟩⟩
  · apply Mat4.ext_idx
    intro c r
    rw [transpose_idx, lab2_mat4mult_eq_transpose_lab3]
  · apply Mat4.ext_idx
    intro c r
    rw [lab2_mat4mult_eq_transpose_lab3, lab3_mat4mult_idx, lab3_mat4mult_idx]
    simp only [transpose_idx]
    ring
  · apply Mat4.ext_idx
    intro c r
    rw [transpose_idx, lab2_mat4mult_eq_transpose_lab5]
  · apply Mat4.ext_idx
    intro c r
    rw [lab2_mat4mult_eq_transpose_lab5, lab5_mat4mult_idx, lab5_mat4mult_idx]
    simp only [transpose_idx]
    ring

/-! ## Rotations across labs, affine matrices (C26 - C28) -/

/-- C26. The two variants of `mat4roty` rotate in opposite directions: the
`mat4roty(t)` of lab3 and lab5 equals lab2's `mat4roty(-t)` and the transpose of
lab2's `mat4roty(t)`; `mat4rotx` and `mat4rotz` are the same arrays in lab2, lab3
and lab5. -/
theorem mat4roty_variants_opposite (t : ℝ) :
    (Lab3.mat4roty Real.cos Real.sin t = Lab2.mat4roty Real.cos Real.sin (-t) ∧
      Lab5.mat4roty Real.cos Real.sin t = Lab2.mat4roty Real.cos Real.sin (-t)) ∧
    (Lab3.mat4roty Real.cos Real.sin t = transpose (Lab2.mat4roty Real.cos Real.sin t) ∧
      Lab5.mat4roty Real.cos Real.sin t = transpose (Lab2.mat4roty Real.cos Real.sin t)) ∧
    (Lab2.mat4rotx Real.cos Real.sin t = Lab3.mat4rotx Real.cos Real.sin t ∧
      Lab3.mat4rotx Real.cos Real.sin t = Lab5.mat4rotx Real.cos Real.sin t) ∧
    (Lab2.mat4rotz Real.cos Real.sin t = Lab3.mat4rotz Real.cos Real.sin t ∧
      Lab3.mat4rotz Real.cos Real.sin t = Lab5.mat4rotz Real.cos Real.sin t) := by
  refine ⟨⟨?_, ?_⟩, ⟨?_, ?_⟩, ⟨rfl, rfl⟩, ⟨rfl, rfl⟩⟩
  · rw [Lab3.mat4roty, Lab2.mat4roty, Real.cos_neg, Real.sin_neg, neg_neg]
  · rw [Lab5.mat4roty, Lab2.mat4roty, Real.cos_neg, Real.sin_neg, neg_neg]
  · funext i
    fin_cases i <;> rfl
  · funext i
    fin_cases i <;> rfl

/-- The bottom row `(0, 0, 0, 1)` is kept by lab3's `mat4mult`. -/
theorem lab3_mat4mult_affine {α : Type} [Field α] (a b : Mat4 α)
    (ha : AffineBottomRow a) (hb : AffineBottomRow b) :
    AffineBottomRow (Lab3.mat4mult a b) := by
  obtain ⟨a3, a7, a11, a15⟩ := ha
  obtain ⟨b3, b7, b11, b15⟩ := hb
  refine ⟨?_, ?_, ?_, ?_⟩
  · show a 3 * b 0 + a 7 * b 1 + a 11 * b 2 + a 15 * b 3 = 0
    rw [a3, a7, a11, b3]
    ring
  · show a 3 * b 4 + a 7 * b 5 + a 11 * b 6 + a 15 * b 7 = 0
    rw [a3, a7, a11, b7]
    ring
  · show a 3 * b 8 + a 7 * b 9 + a 11 * b 10 + a 15 * b 11 = 0
    rw [a3, a7, a11, b11]
    ring
  · show a 3 * b 12 + a 7 * b 13 + a 11 * b 14 + a 15 * b 15 = 1
    rw [a3, a7, a11, a15, b15]
    ring

/-- The bottom row `(0, 0, 0, 1)` is kept by lab5's `mat4mult`. -/
theorem lab5_mat4mult_affine {α : Type} [Field α] (a b : Mat4 α)
    (ha : AffineBottomRow a) (hb : AffineBottomRow b) :
    AffineBottomRow (Lab5.mat4mult a b) := by
  obtain ⟨a3, a7, a11, a15⟩ := ha
  obtain ⟨b3, b7, b11, b15⟩ := hb
  refine ⟨?_, ?_, ?_, ?_⟩
  · show a 3 * b 0 + a 7 * b 1 + a 11 * b 2 + a 15 * b 3 = 0
    rw [a3, a7, a11, b3]
    ring
  · show a 3 * b 4 + a 7 * b 5 + a 11 * b 6 + a 15 * b 7 = 0
    rw [a3, a7, a11, b7]
    ring
  · show a 3 * b 8 + a 7 * b 9 + a 11 * b 10 + a 15 * b 11 = 0
    rw [a3, a7, a11, b11]
    ring
  · show a 3 * b 12 + a 7 * b 13 + a 11 * b 14 + a 15 * b 15 = 1
    rw [a3, a7, a11, a15, b15]
    ring

/-- A matrix with bottom row `(0, 0, 0, 1)` keeps `w = 1` for points. -/
theorem applyVec_affine_w {α : Type} [Field α] (m : Mat4 α) (h : AffineBottomRow m)
    (x y z : α) : applyVec m ![x, y, z, 1] 3 = 1 := by
  obtain ⟨m3, m7, m11, m15⟩ := h
  rw [applyVec_apply]
  show m 3 * x + m 7 * y + m 11 * z + m 15 * 1 = 1
  rw [m3, m7, m11, m15]
  ring

/-- The constructors of lab3 return matrices with bottom row `(0, 0, 0, 1)`. -/
theorem lab3_constructors_affine {α : Type} [Field α] (cos sin : α → α) (t s x y z : α) :
    AffineBottomRow (Lab3.mat4identity : Mat4 α) ∧
    AffineBottomRow (Lab3.mat4rotx cos sin t) ∧
    AffineBottomRow (Lab3.mat4roty cos sin t) ∧
    AffineBottomRow (Lab3.mat4rotz cos sin t) ∧
    AffineBottomRow (Lab3.mat4scale s) ∧
    AffineBottomRow (Lab3.mat4translate x y z) :=
  ⟨⟨rfl, rfl, rfl, rfl⟩, ⟨rfl, rfl, rfl, rfl⟩, ⟨rfl, rfl, rfl, rfl⟩,
    ⟨rfl, rfl, rfl, rfl⟩, ⟨rfl, rfl, rfl, rfl⟩, ⟨rfl, rfl, rfl, rfl⟩⟩

/-- The constructors of lab5 return matrices with bottom row `(0, 0, 0, 1)`. -/
theorem lab5_constructors_affine {α : Type} [Field α] (cos sin : α → α) (t s x y z : α) :
    AffineBottomRow (Lab5.mat4identity : Mat4 α) ∧
    AffineBottomRow (Lab5.mat4rotx cos sin t) ∧
    AffineBottomRow (Lab5.mat4roty cos sin t) ∧
    AffineBottomRow (Lab5.mat4rotz cos sin t) ∧
    AffineBottomRow (Lab5.mat4scale s) ∧
    AffineBottomRow (Lab5.mat4translate x y z) :=
  ⟨⟨rfl, rfl, rfl, rfl⟩, ⟨rfl, rfl, rfl, rfl⟩, ⟨rfl, rfl, rfl, rfl⟩,
    ⟨rfl, rfl, rfl, rfl⟩, ⟨rfl, rfl, rfl, rfl⟩, ⟨rfl, rfl, rfl, rfl⟩⟩

/-- A variable initialised from an array reads back that array. -/
theorem Mat4.ofList_ofFn {α : Type} [Zero α] (m : Mat4 α) :
    Mat4.ofList (List.ofFn m) = m := by
  funext i
  fin_cases i <;> rfl

/-- The matrix `matE` of lab5's render loop has bottom row `(0, 0, 0, 1)`. -/
theorem lab5_matE_affine {α : Type} [Field α] (cos sin : α → α) (pi time : α) :
    AffineBottomRow (Lab5.matE cos sin pi time) := by
  unfold Lab5.matE
  simp only [Mat4.ofList_ofFn]
  exact lab5_mat4mult_affine _ _ (lab5_constructors_affine cos sin _ 0 0 0 0).2.1
    (lab5_mat4mult_affine _ _ (lab5_constructors_affine cos sin _ 0 0 0 0).2.2.1
      (lab5_mat4mult_affine _ _ (lab5_constructors_affine cos sin 0 0 _ _ _).2.2.2.2.2
        (lab5_mat4mult_affine _ _ (lab5_constructors_affine cos sin _ 0 0 0 0).2.2.1
          (lab5_mat4mult_affine _ _ (lab5_constructors_affine cos sin 0 _ 0 0 0).2.2.2.2.1
            (lab5_constructors_affine cos sin _ 0 0 0 0).2.1))))

/-- C27. Affine-matrix invariant in lab3 and lab5: `mat4identity`, `mat4rotx`,
`mat4roty`, `mat4rotz`, `mat4scale` and `mat4translate` return matrices with
bottom row `(0, 0, 0, 1)` (indices 3, 7, 11 are 0, index 15 is 1); `mat4mult` of
two matrices with that bottom row has it again; so the model-view matrices
`matE` and `matMV` of lab5's render loop have it and keep `w = 1` for points. -/
theorem affine_bottom_row_invariant (a b : Mat4 ℝ)
    (ha : AffineBottomRow a) (hb : AffineBottomRow b) (t s x y z time : ℝ) :
    (AffineBottomRow (Lab3.mat4identity : Mat4 ℝ) ∧
      AffineBottomRow (Lab3.mat4rotx Real.cos Real.sin t) ∧
      AffineBottomRow (Lab3.mat4roty Real.cos Real.sin t) ∧
      AffineBottomRow (Lab3.mat4rotz Real.cos Real.sin t) ∧
      AffineBottomRow (Lab3.mat4scale s) ∧
      AffineBottomRow (Lab3.mat4translate x y z)) ∧
    (AffineBottomRow (Lab5.mat4identity : Mat4 ℝ) ∧
      AffineBottomRow (Lab5.mat4rotx Real.cos Real.sin t) ∧
      AffineBottomRow (Lab5.mat4roty Real.cos Real.sin t) ∧
      AffineBottomRow (Lab5.mat4rotz Real.cos Real.sin t) ∧
      AffineBottomRow (Lab5.mat4scale s) ∧
      AffineBottomRow (Lab5.mat4translate x y z)) ∧
    AffineBottomRow (Lab3.mat4mult a b) ∧
    AffineBottomRow (Lab5.mat4mult a b) ∧
    applyVec (Lab3.mat4mult a b) ![x, y, z, 1] 3 = 1 ∧
    applyVec (Lab5.mat4mult a b) ![x, y, z, 1] 3 = 1 ∧
    AffineBottomRow (Lab5.matE Real.cos Real.sin Real.pi time) ∧
    AffineBottomRow (Lab5.matMV Real.cos Real.sin Real.pi time) ∧
    applyVec (Lab5.matMV Real.cos Real.sin Real.pi time) ![x, y, z, 1] 3 = 1 := by
  have hMV : AffineBottomRow (Lab5.matMV Real.cos Real.sin Real.pi time) := by
    unfold Lab5.matMV
    simp only [Mat4.ofList_ofFn]
    exact lab5_mat4mult_affine _ _
      (lab5_mat4mult_affine _ _
        (lab5_constructors_affine Real.cos Real.sin 0 0 _ _ _).2.2.2.2.2
        (lab5_matE_affine Real.cos Real.sin Real.pi time))
      (lab5_constructors_affine Real.cos Real.sin 0 _ 0 0 0).2.2.2.2.1
  exact ⟨lab3_constructors_affine Real.cos Real.sin t s x y z,
    lab5_constructors_affine Real.cos Real.sin t s x y z,
    lab3_mat4mult_affine a b ha hb, lab5_mat4mult_affine a b ha hb,
    applyVec_affine_w _ (lab3_mat4mult_affine a b ha hb) x y z,
    applyVec_affine_w _ (lab5_mat4mult_affine a b ha hb) x y z,
    lab5_matE_affine Real.cos Real.sin Real.pi time, hMV,
    applyVec_affine_w _ hMV x y z⟩

/-- C27 at `a = mat4translate(1, 2, 3)`, `b = mat4scale(2)`, x, y, z = 4, 5, 6,
angle 1, factor 2 and time 7. -/
theorem affine_bottom_row_invariant_witness :
    (AffineBottomRow (Lab5.mat4translate (1 : ℝ) 2 3) ∧
      AffineBottomRow (Lab5.mat4scale (2 : ℝ))) ∧
    (AffineBottomRow (Lab3.mat4identity : Mat4 ℝ) ∧
      AffineBottomRow (Lab3.mat4rotx Real.cos Real.sin 1) ∧
      AffineBottomRow (Lab3.mat4roty Real.cos Real.sin 1) ∧
      AffineBottomRow (Lab3.mat4rotz Real.cos Real.sin 1) ∧
      AffineBottomRow (Lab3.mat4scale (2 : ℝ)) ∧
      AffineBottomRow (Lab3.mat4translate (4 : ℝ) 5 6)) ∧
    (AffineBottomRow (Lab5.mat4identity : Mat4 ℝ) ∧
      AffineBottomRow (Lab5.mat4rotx Real.cos Real.sin 1) ∧
      AffineBottomRow (Lab5.mat4roty Real.cos Real.sin 1) ∧
      AffineBottomRow (Lab5.mat4rotz Real.cos Real.sin 1) ∧
      AffineBottomRow (Lab5.mat4scale (2 : ℝ)) ∧
      AffineBottomRow (Lab5.mat4translate (4 : ℝ) 5 6)) ∧
    AffineBottomRow (Lab3.mat4mult (Lab5.mat4translate (1 : ℝ) 2 3) (Lab5.mat4scale 2)) ∧
    AffineBottomRow (Lab5.mat4mult (Lab5.mat4translate (1 : ℝ) 2 3) (Lab5.mat4scale 2)) ∧
    applyVec (Lab3.mat4mult (Lab5.mat4translate (1 : ℝ) 2 3) (Lab5.mat4scale 2)) ![4, 5, 6, 1] 3 = 1 ∧
    applyVec (Lab5.mat4mult (Lab5.mat4translate (1 : ℝ) 2 3) (Lab5.mat4scale 2)) ![4, 5, 6, 1] 3 = 1 ∧
    AffineBottomRow (Lab5.matE Real.cos Real.sin Real.pi 7) ∧
    AffineBottomRow (Lab5.matMV Real.cos Real.sin Real.pi 7) ∧
    applyVec (Lab5.matMV Real.cos Real.sin Real.pi 7) ![4, 5, 6, 1] 3 = 1 :=
  ⟨⟨⟨rfl, rfl, rfl, rfl⟩, ⟨rfl, rfl, rfl, rfl⟩⟩,
    affine_bottom_row_invariant (Lab5.mat4translate 1 2 3) (Lab5.mat4scale 2)
      ⟨rfl, rfl, rfl, rfl⟩ ⟨rfl, rfl, rfl, rfl⟩ 1 2 4 5 6 7⟩

/-- Two `mat4rotx` of lab3 multiply to the `mat4rotx` of the sum of the angles. -/
theorem lab3_mat4rotx_mul (a b : ℝ) :
    Lab3.mat4mult (Lab3.mat4rotx Real.cos Real.sin a) (Lab3.mat4rotx Real.cos Real.sin b)
      = Lab3.mat4rotx Real.cos Real.sin (a + b) := by
  apply Mat4.ext_idx
  intro col row
  rw [lab3_mat4mult_idx]
  simp only [Lab3.mat4rotx, vec16_idx]
  fin_cases col <;> fin_cases row <;>
    simp [Matrix.vecHead, Matrix.vecTail, Real.cos_add, Real.sin_add] <;> ring

/-- A `mat4rotx` of lab3 followed by the one of the opposite angle is the identity. -/
theorem lab3_mat4rotx_mul_neg (a : ℝ) :
    Lab3.mat4mult (Lab3.mat4rotx Real.cos Real.sin a) (Lab3.mat4rotx Real.cos Real.sin (-a))
      = Lab3.mat4identity := by
  rw [lab3_mat4rotx_mul, add_neg_cancel, Lab3.mat4rotx, Lab3.mat4identity,
    Real.cos_zero, Real.sin_zero, neg_zero]

/-- Two `mat4roty` of lab3 multiply to the `mat4roty` of the sum of the angles. -/
theorem lab3_mat4roty_mul (a b : ℝ) :
    Lab3.mat4mult (Lab3.mat4roty Real.cos Real.sin a) (Lab3.mat4roty Real.cos Real.sin b)
      = Lab3.mat4roty Real.cos Real.sin (a + b) := by
  apply Mat4.ext_idx
  intro col row
  rw [lab3_mat4mult_idx]
  simp only [Lab3.mat4roty, vec16_idx]
  fin_cases col <;> fin_cases row <;>
    simp [Matrix.vecHead, Matrix.vecTail, Real.cos_add, Real.sin_add] <;> ring

/-- A `mat4roty` of lab3 followed by the one of the opposite angle is the identity. -/
theorem lab3_mat4roty_mul_neg (a : ℝ) :
    Lab3.mat4mult (Lab3.mat4roty Real.cos Real.sin a) (Lab3.mat4roty Real.cos Real.sin (-a))
      = Lab3.mat4identity := by
  rw [lab3_mat4roty_mul, add_neg_cancel, Lab3.mat4roty, Lab3.mat4identity,
    Real.cos_zero, Real.sin_zero, neg_zero]

/-- Two `mat4rotz` of lab3 multiply to the `mat4rotz` of the sum of the angles. -/
theorem lab3_mat4rotz_mul (a b : ℝ) :
    Lab3.mat4mult (Lab3.mat4rotz Real.cos Real.sin a) (Lab3.mat4rotz Real.cos Real.sin b)
      = Lab3.mat4rotz Real.cos Real.sin (a + b) := by
  apply Mat4.ext_idx
  intro col row
  rw [lab3_mat4mult_idx]
  simp only [Lab3.mat4rotz, vec16_idx]
  fin_cases col <;> fin_cases row <;>
    simp [Matrix.vecHead, Matrix.vecTail, Real.cos_add, Real.sin_add] <;> ring

/-- A `mat4rotz` of lab3 followed by the one of the opposite angle is the identity. -/
theorem lab3_mat4rotz_mul_neg (a : ℝ) :
    Lab3.mat4mult (Lab3.mat4rotz Real.cos Real.sin a) (Lab3.mat4rotz Real.cos Real.sin (-a))
      = Lab3.mat4identity := by
  rw [lab3_mat4rotz_mul, add_neg_cancel, Lab3.mat4rotz, Lab3.mat4identity,
    Real.cos_zero, Real.sin_zero, neg_zero]

/-- Two `mat4rotx` of lab5 multiply to the `mat4rotx` of the sum of the angles. -/
theorem lab5_mat4rotx_mul (a b : ℝ) :
    Lab5.mat4mult (Lab5.mat4rotx Real.cos Real.sin a) (Lab5.mat4rotx Real.cos Real.sin b)
      = Lab5.mat4rotx Real.cos Real.sin (a + b) := by
  apply Mat4.ext_idx
  intro col row
  rw [lab5_mat4mult_idx]
  simp only [Lab5.mat4rotx, vec16_idx]
  fin_cases col <;> fin_cases row <;>
    simp [Matrix.vecHead, Matrix.vecTail, Real.cos_add, Real.sin_add] <;> ring

/-- A `mat4rotx` of lab5 followed by the one of the opposite angle is the identity. -/
theorem lab5_mat4rotx_mul_neg (a : ℝ) :
    Lab5.mat4mult (Lab5.mat4rotx Real.cos Real.sin a) (Lab5.mat4rotx Real.cos Real.sin (-a))
      = Lab5.mat4identity := by
  rw [lab5_mat4rotx_mul, add_neg_cancel, Lab5.mat4rotx, Lab5.mat4identity,
    Real.cos_zero, Real.sin_zero, neg_zero]

/-- Two `mat4roty` of lab5 multiply to the `mat4roty` of the sum of the angles. -/
theorem lab5_mat4roty_mul (a b : ℝ) :
    Lab5.mat4mult (Lab5.mat4roty Real.cos Real.sin a) (Lab5.mat4roty Real.cos Real.sin b)
      = Lab5.mat4roty Real.cos Real.sin (a + b) := by
  apply Mat4.ext_idx
  intro col row
  rw [lab5_mat4mult_idx]
  simp only [Lab5.mat4roty, vec16_idx]
  fin_cases col <;> fin_cases row <;>
    simp [Matrix.vecHead, Matrix.vecTail, Real.cos_add, Real.sin_add] <;> ring

/-- A `mat4roty` of lab5 followed by the one of the opposite angle is the identity. -/
theorem lab5_mat4roty_mul_neg (a : ℝ) :
    Lab5.mat4mult (Lab5.mat4roty Real.cos Real.sin a) (Lab5.mat4roty Real.cos Real.sin (-a))
      = Lab5.mat4identity := by
  rw [lab5_mat4roty_mul, add_neg_cancel, Lab5.mat4roty, Lab5.mat4identity,
    Real.cos_zero, Real.sin_zero, neg_zero]

/-- Two `mat4rotz` of lab5 multiply to the `mat4rotz` of the sum of the angles. -/
theorem lab5_mat4rotz_mul (a b : ℝ) :
    Lab5.mat4mult (Lab5.mat4rotz Real.cos Real.sin a) (Lab5.mat4rotz Real.cos Real.sin b)
      = Lab5.mat4rotz Real.cos Real.sin (a + b) := by
  apply Mat4.ext_idx
  intro col row
  rw [lab5_mat4mult_idx]
  simp only [Lab5.mat4rotz, vec16_idx]
  fin_cases col <;> fin_cases row <;>
    simp [Matrix.vecHead, Matrix.vecTail, Real.cos_add, Real.sin_add] <;> ring

/-- A `mat4rotz` of lab5 followed by the one of the opposite angle is the identity. -/
theorem lab5_mat4rotz_mul_neg (a : ℝ) :
    Lab5.mat4mult (Lab5.mat4rotz Real.cos Real.sin a) (Lab5.mat4rotz Real.cos Real.sin (-a))
      = Lab5.mat4identity := by
  rw [lab5_mat4rotz_mul, add_neg_cancel, Lab5.mat4rotz, Lab5.mat4identity,
    Real.cos_zero, Real.sin_zero, neg_zero]

/-- C28. Rotations about one axis add their angles in lab3 and lab5: for each of
`mat4rotx`, `mat4roty`, `mat4rotz`, `mat4mult(R(a), R(b))` equals `R(a+b)` over
the reals, and `mat4mult(R(a), R(-a))` equals `mat4identity()`. -/
theorem rotations_add_angles (a b : ℝ) :
    (Lab3.mat4mult (Lab3.mat4rotx Real.cos Real.sin a) (Lab3.mat4rotx Real.cos Real.sin b)
        = Lab3.mat4rotx Real.cos Real.sin (a + b) ∧
      Lab3.mat4mult (Lab3.mat4rotx Real.cos Real.sin a) (Lab3.mat4rotx Real.cos Real.sin (-a))
        = Lab3.mat4identity) ∧
    (Lab3.mat4mult (Lab3.mat4roty Real.cos Real.sin a) (Lab3.mat4roty Real.cos Real.sin b)
        = Lab3.mat4roty Real.cos Real.sin (a + b) ∧
      Lab3.mat4mult (Lab3.mat4roty Real.cos Real.sin a) (Lab3.mat4roty Real.cos Real.sin (-a))
        = Lab3.mat4identity) ∧
    (Lab3.mat4mult (Lab3.mat4rotz Real.cos Real.sin a) (Lab3.mat4rotz Real.cos Real.sin b)
        = Lab3.mat4rotz Real.cos Real.sin (a + b) ∧
      Lab3.mat4mult (Lab3.mat4rotz Real.cos Real.sin a) (Lab3.mat4rotz Real.cos Real.sin (-a))
        = Lab3.mat4identity) ∧
    (Lab5.mat4mult (Lab5.mat4rotx Real.cos Real.sin a) (Lab5.mat4rotx Real.cos Real.sin b)
        = Lab5.mat4rotx Real.cos Real.sin (a + b) ∧
      Lab5.mat4mult (Lab5.mat4rotx Real.cos Real.sin a) (Lab5.mat4rotx Real.cos Real.sin (-a))
        = Lab5.mat4identity) ∧
    (Lab5.mat4mult (Lab5.mat4roty Real.cos Real.sin a) (Lab5.mat4roty Real.cos Real.sin b)
        = Lab5.mat4roty Real.cos Real.sin (a + b) ∧
      Lab5.mat4mult (Lab5.mat4roty Real.cos Real.sin a) (Lab5.mat4roty Real.cos Real.sin (-a))
        = Lab5.mat4identity) ∧
    (Lab5.mat4mult (Lab5.mat4rotz Real.cos Real.sin a) (Lab5.mat4rotz Real.cos Real.sin b)
        = Lab5.mat4rotz Real.cos Real.sin (a + b) ∧
      Lab5.mat4mult (Lab5.mat4rotz Real.cos Real.sin a) (Lab5.mat4rotz Real.cos Real.sin (-a))
        = Lab5.mat4identity) :=
  ⟨⟨lab3_mat4rotx_mul a b, lab3_mat4rotx_mul_neg a⟩,
    ⟨lab3_mat4roty_mul a b, lab3_mat4roty_mul_neg a⟩,
    ⟨lab3_mat4rotz_mul a b, lab3_mat4rotz_mul_neg a⟩,
    ⟨lab5_mat4rotx_mul a b, lab5_mat4rotx_mul_neg a⟩,
    ⟨lab5_mat4roty_mul a b, lab5_mat4roty_mul_neg a⟩,
    ⟨lab5_mat4rotz_mul a b, lab5_mat4rotz_mul_neg a⟩⟩

/-! ## The cube mesh of lab2 (C29, C30) -/

/-- C29, evaluated on the code. With `sizeof(GLuint) = 4`, `createIndexBuffer`
uploads the 36 indices of `indexArrayData` (144 bytes), and both `glDrawElements`
calls of lab2's render loop pass the count `indexArrayData.size() * sizeof(GLuint)`
= 144: the count exceeds the 36 stored indices, and the 576 bytes read exceed the
144 bytes of the buffer. -/
theorem lab2_draw_count_exceeds_index_buffer :
    Lab2.indexArrayData.length = 36 ∧
    Lab2.createIndexBufferBytes Lab2.indexArrayData 4 = 144 ∧
    Lab2.drawElementsCount 4 = 144 ∧
    ¬ (Lab2.drawElementsCount 4 ≤ Lab2.indexArrayData.length) ∧
    ¬ (Lab2.drawElementsCount 4 * 4 ≤ Lab2.createIndexBufferBytes Lab2.indexArrayData 4) := by
  decide

/-- C30. Lab2's cube is consistently wound: `vertexArrayData` holds 8 xyz
triples, `indexArrayData` holds 12 index triples, each triple refers to vertices
below 8, and the face normal `(v[i1]-v[i0]) x (v[i2]-v[i0])` of each triangle has
a strictly positive dot product with the triangle's centroid, so every
triangle is counter-clockwise seen from outside the cube centred at the origin. -/
theorem lab2_cube_wound_outward (k : Fin 12) :
    (Lab2.vertexArrayData : List ℝ).length = 8 * 3 ∧
    Lab2.indexArrayData.length = 12 * 3 ∧
    triangleIndex Lab2.indexArrayData k.val 0 < 8 ∧
    triangleIndex Lab2.indexArrayData k.val 1 < 8 ∧
    triangleIndex Lab2.indexArrayData k.val 2 < 8 ∧
    0 < dot (faceNormal (Lab2.vertexArrayData : List ℝ) Lab2.indexArrayData k.val)
          (centroid (Lab2.vertexArrayData : List ℝ) Lab2.indexArrayData k.val) := by
  refine ⟨rfl, rfl, ?_, ?_, ?_, ?_⟩
  · fin_cases k <;> decide
  · fin_cases k <;> decide
  · fin_cases k <;> decide
  · fin_cases k <;>
      norm_num [dot, faceNormal, centroid, cross, vertexAt, triangleIndex,
        Lab2.vertexArrayData, Lab2.indexArrayData]

/-! ## `mat4perspective` on binary32 (C8, C21, C22 as stated) -/

/-- C21 as stated fails on the code. `mat4perspective(1, 1, 3e38f, 3.2e38f)`
meets the precondition (`3e38f = 14791142 * 2^104`, `3.2e38f = 15777218 * 2^104`),
yet in binary32 `zfar + znear` and `2 * zfar` overflow: indices 10 and 14 of the
returned array are `-inf` whatever the library tangent returns, so not all
sixteen entries are finite. -/
theorem mat4perspective_binary32_overflow :
    ((0 : ℚ) < F32.toRat (F32.fin false 14791142 104) ∧
      F32.toRat (F32.fin false 14791142 104) < F32.toRat (F32.fin false 15777218 104) ∧
      (0 : ℚ) < F32.toRat 1 ∧ ((F32.toRat 1 : ℚ) : ℝ) < Real.pi) ∧
    ¬ ∃ tan : F32 → F32, ∀ i : Fin 16,
      F32.isFinite (Lab5.mat4perspective tan 1 1
        (F32.fin false 14791142 104) (F32.fin false 15777218 104) i) = true := by
  refine ⟨⟨?_, ?_, ?_, ?_⟩, ?_⟩
  · norm_num [F32.toRat]
  · norm_num [F32.toRat]
  · show (0 : ℚ) < F32.toRat (F32.fin false 1 0)
    norm_num [F32.toRat]
  · show ((F32.toRat (F32.fin false 1 0) : ℚ) : ℝ) < Real.pi
    have := Real.pi_gt_three
    norm_num [F32.toRat]
    linarith
  · rintro ⟨tan, h⟩
    have h10 := h 10
    have e10 : Lab5.mat4perspective tan 1 1
        (F32.fin false 14791142 104) (F32.fin false 15777218 104) 10 = F32.inf true := rfl
    rw [e10] at h10
    exact absurd h10 (by decide)

end TNM046
